import Mathlib

/-!
Shallow embedding of `examples/utils/migration-tools/src/migrator.ts` (class
`Migrator`).  The class is a single-threaded async state machine: between two
`await`s nothing else runs, so each method is modelled as a Lean function from
the orchestrator's private state to a result.  External collaborators (the
model loader, the migration tool, the models, the data-transformation
callback) are modelled by an environment record holding the value each
external call or property read returns at the particular point in the control
flow where the source performs it; distinct read sites get distinct fields
because the external world may change between suspension points.  Every
external call, event emission, listener registration and dispatcher
re-invocation is recorded in an event trace.  A failed `assert` rejects the
enclosing promise; this is modelled by an `error` field in the result.
Model and tool instances are identified by opaque numeric identities;
container ids and versions stay strings as in the source.
-/

namespace MigratorSpec

/-- The `MigrationState` union type: "collaborating" | "migrating" | "migrated". -/
inductive MigrationState where
  | collaborating
  | migrating
  | migrated
deriving DecidableEq, Repr

/-- The accepted migration descriptor exposed by the migration tool:
`{ newVersion, migrationSequenceNumber }`. -/
structure AcceptedMigration where
  newVersion : String
  migrationSequenceNumber : Nat
deriving DecidableEq, Repr

/-- `MigratableParts`: the
`{ model, migrationTool, id }` triple swapped out atomically as the migration
happens (migrator.ts lines 25-29).  Models and tools are opaque identities. -/
structure MigratableParts where
  model : Nat
  migrationTool : Nat
  id : String
deriving DecidableEq, Repr

/-- The orchestrator's private mutable fields.  The two promise fields
`_migrationP` / `_migratedLoadP` are modelled by whether they are defined. -/
structure MigratorState where
  currentMigratable : MigratableParts
  migrationP : Bool
  migratedLoadP : Bool
  preparedDetachedModel : Option Nat
  preparedModelId : Option String
deriving DecidableEq, Repr

/-- The migration tool's observable surface during one synchronous stretch of
execution (no `await` intervenes, so one snapshot suffices for a sync entry). -/
structure ToolObs where
  migrationState : MigrationState
  connected : Bool
  acceptedMigration : Option AcceptedMigration
  newContainerId : Option String
deriving DecidableEq, Repr

/-- Construction-time configuration: whether a `dataTransformationCallback`
was supplied to the constructor. -/
structure MigratorConfig where
  hasTransformCallback : Bool
deriving DecidableEq, Repr

/-- Responses of the external world at each suspension point of one migration
attempt (`doTheMigration`), one field per read/call site in source order. -/
structure AttemptEnv where
  /-- `modelLoader.supportsVersion(acceptedMigration.newVersion)` (line 162). -/
  supportsVersion : Bool
  /-- identity of `detachedModel.model` returned by `createDetached` (line 171). -/
  detachedModelId : Nat
  /-- `migratedModel.version`, passed to the transform callback (line 206). -/
  detachedVersion : String
  /-- identity of the paused export model from `loadExistingPaused` (line 184). -/
  exportModelId : Nat
  /-- the data returned by `exportModel.exportData()` (line 188). -/
  exportedData : Nat
  /-- `migratedModel.supportsDataFormat(exportedData)` (line 196). -/
  supportsDataFormat : Bool
  /-- result of `dataTransformationCallback`; `none` models a throw (line 204). -/
  transformResult : Option Nat
  /-- `this.migrationState` re-read after the prepare phase (line 274). -/
  stateAfterPrepare : MigrationState
  /-- result of `volunteerForMigration()`; `none` models a throw (line 236). -/
  volunteerResult : Option Bool
  /-- `this.connected` as read inside the volunteer catch block (line 242). -/
  connectedInCatch : Bool
  /-- `currentMigrationTool.newContainerId` after volunteering (line 246). -/
  newContainerIdAfterVolunteer : Option String
  /-- the id returned by `this._preparedDetachedModel.attach()` (line 254). -/
  attachResult : String
  /-- `currentMigrationTool.haveMigrationTask()` (line 258). -/
  haveMigrationTask : Bool
  /-- `this.connected` as read inside the `.then` continuation (line 287). -/
  connectedAtEnd : Bool
  /-- `currentMigrationTool.newContainerId` inside the `.then` (line 291). -/
  newContainerIdAtEnd : Option String
deriving DecidableEq, Repr

/-- Responses of the external world during `doTheLoad`. -/
structure LoadEnv where
  /-- `modelLoader.supportsVersion(acceptedMigration.newVersion)` (line 326). -/
  supportsVersion : Bool
  /-- identity of the model returned by `loadExisting` (line 334). -/
  loadedModelId : Nat
  /-- identity of the migration tool returned by `loadExisting` (line 334). -/
  loadedToolId : Nat
deriving DecidableEq, Repr

/-- Observable actions: external calls, event emissions, one-time listener
registrations, dispatcher re-invocations, and errors printed by `.catch`. -/
inductive Event where
  | emitMigrating
  | emitMigrationNotSupported (version : String)
  | emitMigrated (modelId : Nat) (id : String)
  | callSupportsVersion (version : String)
  | callCreateDetached (version : String)
  | callLoadExistingPaused (id : String) (seq : Nat)
  | callExportData (modelId : Nat)
  | callDispose (modelId : Nat)
  | callSupportsDataFormat (modelId : Nat) (data : Nat)
  | callTransform (data : Nat) (version : String)
  | callImportData (modelId : Nat) (data : Nat)
  | callVolunteerForMigration
  | callAttach
  | callHaveMigrationTask
  | callFinalizeMigration (id : String)
  | callCompleteMigrationTask
  | callLoadExisting (id : String)
  | registerOnceMigrating
  | registerOnceConnected
  | invokeDispatcher
  | consoleError (msg : String)
deriving DecidableEq, Repr

/-- Result of running an async body to completion: the final private state,
the trace of observable actions, and `some msg` when the promise rejected
(a failed `assert(msg)`). -/
structure StepResult where
  state : MigratorState
  trace : List Event
  error : Option String
deriving DecidableEq, Repr

/-- `prepareTheMigration` (migrator.ts lines 155-225).  Runs only when
`_preparedDetachedModel` is undefined.  On the three recoverable-failure
paths it emits `migrationNotSupported`, clears `_migrationP` and returns;
on success it imports the data and caches the detached model. -/
def prepareTheMigration (cfg : MigratorConfig) (env : AttemptEnv)
    (acc : AcceptedMigration) (s : MigratorState) : StepResult :=
  if !env.supportsVersion then
    { state := { s with migrationP := false },
      trace := [Event.callSupportsVersion acc.newVersion,
                Event.emitMigrationNotSupported acc.newVersion],
      error := none }
  else
    let t1 : List Event :=
      [Event.callSupportsVersion acc.newVersion,
       Event.callCreateDetached acc.newVersion,
       Event.callLoadExistingPaused s.currentMigratable.id acc.migrationSequenceNumber,
       Event.callExportData env.exportModelId,
       Event.callDispose env.exportModelId,
       Event.callSupportsDataFormat env.detachedModelId env.exportedData]
    if env.supportsDataFormat then
      { state := { s with preparedDetachedModel := some env.detachedModelId },
        trace := t1 ++ [Event.callImportData env.detachedModelId env.exportedData],
        error := none }
    else if cfg.hasTransformCallback then
      match env.transformResult with
      | some d =>
        { state := { s with preparedDetachedModel := some env.detachedModelId },
          trace := t1 ++ [Event.callTransform env.exportedData env.detachedVersion,
                          Event.callImportData env.detachedModelId d],
          error := none }
      | none =>
        { state := { s with migrationP := false },
          trace := t1 ++ [Event.callTransform env.exportedData env.detachedVersion,
                          Event.emitMigrationNotSupported acc.newVersion],
          error := none }
    else
      { state := { s with migrationP := false },
        trace := t1 ++ [Event.emitMigrationNotSupported acc.newVersion],
        error := none }

/-- `completeTheMigration` (migrator.ts lines 227-266).  Asserts the prepared
model exists, volunteers for the finalize task, handles the disconnect throw
and the lost-race / lost-task exits, attaches at most once, and finalizes. -/
def completeTheMigration (env : AttemptEnv) (s : MigratorState) : StepResult :=
  match s.preparedDetachedModel with
  | none =>
    { state := s, trace := [],
      error := some "this._preparedDetachedModel should be defined" }
  | some _ =>
    match env.volunteerResult with
    | none =>
      if env.connectedInCatch then
        { state := s, trace := [Event.callVolunteerForMigration],
          error := some "We should be disconnected" }
      else
        { state := s, trace := [Event.callVolunteerForMigration], error := none }
    | some isAssigned =>
      if env.newContainerIdAfterVolunteer ≠ none then
        { state := s, trace := [Event.callVolunteerForMigration], error := none }
      else if !isAssigned then
        { state := s, trace := [Event.callVolunteerForMigration],
          error := some "We should be assigned the migration task" }
      else
        let attached : MigratorState × List Event × String :=
          match s.preparedModelId with
          | none =>
            ({ s with preparedModelId := some env.attachResult },
             [Event.callVolunteerForMigration, Event.callAttach], env.attachResult)
          | some i => (s, [Event.callVolunteerForMigration], i)
        let s1 := attached.1
        let t1 := attached.2.1
        let preparedId := attached.2.2
        if !env.haveMigrationTask then
          { state := s1, trace := t1 ++ [Event.callHaveMigrationTask], error := none }
        else
          { state := s1,
            trace := t1 ++ [Event.callHaveMigrationTask,
                            Event.callFinalizeMigration preparedId,
                            Event.callCompleteMigrationTask],
            error := none }

/-- `doTheMigration` (migrator.ts lines 149-279): prepare unless already
prepared, re-check the phase, then complete. -/
def doTheMigration (cfg : MigratorConfig) (env : AttemptEnv)
    (acc : AcceptedMigration) (s : MigratorState) : StepResult :=
  let r1 : StepResult :=
    if s.preparedDetachedModel = none then prepareTheMigration cfg env acc s
    else { state := s, trace := [], error := none }
  if env.stateAfterPrepare ≠ MigrationState.migrating then
    { state := r1.state, trace := r1.trace, error := none }
  else
    let r2 := completeTheMigration env r1.state
    { state := r2.state, trace := r1.trace ++ r2.trace, error := r2.error }

/-- The `.then(...).catch(console.error)` chain attached to `doTheMigration`
(migrator.ts lines 283-298).  A rejection of the body skips the `.then` and is
consumed by the `.catch`; a failure of the `.then`-block assert is likewise
consumed, leaving `_migrationP` defined and the dispatcher not re-invoked. -/
def migrationContinuation (env : AttemptEnv) (r : StepResult) : StepResult :=
  match r.error with
  | some e =>
    { state := r.state, trace := r.trace ++ [Event.consoleError e], error := none }
  | none =>
    if env.connectedAtEnd ∧ env.newContainerIdAtEnd = none then
      { state := r.state,
        trace := r.trace ++ [Event.consoleError "newContainerId should be defined"],
        error := none }
    else
      { state := { r.state with migrationP := false },
        trace := r.trace ++ [Event.invokeDispatcher], error := none }

/-- Outcome of the synchronous prefix of `ensureMigrating` / `ensureLoading`:
it returned without starting anything, it threw, or it started the attempt. -/
inductive SyncOutcome where
  | returned
  | threw (msg : String)
  | started
deriving DecidableEq, Repr

/-- The synchronous prefix of `ensureMigrating` (migrator.ts lines 121-147,
281-283): connectivity guard, idempotent re-entry guard, mutual-exclusion
throw, accepted-migration throw, `migrating` emission and promise creation. -/
def ensureMigratingSync (tool : ToolObs) (s : MigratorState) :
    SyncOutcome × MigratorState × List Event :=
  if !tool.connected then
    (SyncOutcome.returned, s, [Event.registerOnceConnected])
  else if s.migrationP then
    (SyncOutcome.returned, s, [])
  else if s.migratedLoadP then
    (SyncOutcome.threw "Cannot perform migration, we are currently trying to load", s, [])
  else
    match tool.acceptedMigration with
    | none => (SyncOutcome.threw "Expect an accepted migration before migration starts", s, [])
    | some _ =>
      (SyncOutcome.started, { s with migrationP := true }, [Event.emitMigrating])

/-- `ensureMigrating` run to quiescence: the synchronous prefix, then (when an
attempt started) the whole `doTheMigration` body and its continuation chain.
A synchronous `throw` propagates to the caller as `Except.error`. -/
def ensureMigratingRun (cfg : MigratorConfig) (tool : ToolObs) (env : AttemptEnv)
    (s : MigratorState) : Except String StepResult :=
  match ensureMigratingSync tool s with
  | (SyncOutcome.threw m, _, _) => Except.error m
  | (SyncOutcome.returned, s1, t) => Except.ok { state := s1, trace := t, error := none }
  | (SyncOutcome.started, s1, t) =>
    match tool.acceptedMigration with
    | none => Except.error "Expect an accepted migration before migration starts"
    | some acc =>
      let r := migrationContinuation env (doTheMigration cfg env acc s1)
      Except.ok { state := r.state, trace := t ++ r.trace, error := r.error }

/-- The synchronous prefix of `ensureLoading` (migrator.ts lines 301-321):
idempotent re-entry guard, mutual-exclusion throw, accepted-migration and
new-container-id throws, promise creation. -/
def ensureLoadingSync (tool : ToolObs) (s : MigratorState) :
    SyncOutcome × MigratorState :=
  if s.migratedLoadP then (SyncOutcome.returned, s)
  else if s.migrationP then
    (SyncOutcome.threw "Cannot start loading the migrated before migration is complete", s)
  else
    match tool.acceptedMigration with
    | none => (SyncOutcome.threw "Expect an accepted version before migration starts", s)
    | some _ =>
      match tool.newContainerId with
      | none => (SyncOutcome.threw "Migration ended without a new container being created", s)
      | some _ => (SyncOutcome.started, { s with migratedLoadP := true })

/-- `doTheLoad` (migrator.ts lines 323-354): version check, load of the new
session, atomic whole-record swap of `_currentMigratable`, `migrated`
emission, cache reset, dispatcher re-invocation. -/
def doTheLoad (env : LoadEnv) (acc : AcceptedMigration) (migratedId : String)
    (s : MigratorState) : StepResult :=
  if !env.supportsVersion then
    { state := { s with migratedLoadP := false },
      trace := [Event.callSupportsVersion acc.newVersion,
                Event.emitMigrationNotSupported acc.newVersion],
      error := none }
  else
    { state :=
        { currentMigratable :=
            { model := env.loadedModelId, migrationTool := env.loadedToolId,
              id := migratedId },
          migrationP := s.migrationP,
          migratedLoadP := false,
          preparedDetachedModel := none,
          preparedModelId := none },
      trace := [Event.callSupportsVersion acc.newVersion,
                Event.callLoadExisting migratedId,
                Event.emitMigrated env.loadedModelId migratedId,
                Event.invokeDispatcher],
      error := none }

/-- `ensureLoading` run to quiescence: the synchronous prefix, then (when a
load started) the whole `doTheLoad` body. -/
def ensureLoadingRun (tool : ToolObs) (env : LoadEnv) (s : MigratorState) :
    Except String StepResult :=
  match ensureLoadingSync tool s with
  | (SyncOutcome.threw m, _) => Except.error m
  | (SyncOutcome.returned, s1) => Except.ok { state := s1, trace := [], error := none }
  | (SyncOutcome.started, s1) =>
    match tool.acceptedMigration, tool.newContainerId with
    | some acc, some migratedId => Except.ok (doTheLoad env acc migratedId s1)
    | _, _ => Except.error "unreachable"

/-- `takeAppropriateActionForCurrentMigratable` (migrator.ts lines 107-119):
dispatch on the current tool's phase. -/
def takeAppropriateActionForCurrentMigratable (cfg : MigratorConfig)
    (tool : ToolObs) (aenv : AttemptEnv) (lenv : LoadEnv) (s : MigratorState) :
    Except String StepResult :=
  match tool.migrationState with
  | MigrationState.migrating => ensureMigratingRun cfg tool aenv s
  | MigrationState.migrated => ensureLoadingRun tool lenv s
  | MigrationState.collaborating =>
    Except.ok { state := s, trace := [Event.registerOnceMigrating], error := none }

/-- The constructor's field initialization (migrator.ts lines 86-99): the
triple is written once as a whole record; promise and cache fields start
undefined. -/
def migratorInit (model migrationTool : Nat) (id : String) : MigratorState :=
  { currentMigratable := { model := model, migrationTool := migrationTool, id := id },
    migrationP := false,
    migratedLoadP := false,
    preparedDetachedModel := none,
    preparedModelId := none }

/-- The `currentModel` accessor (line 38). -/
def currentModel (s : MigratorState) : Nat := s.currentMigratable.model

/-- The `currentMigrationTool` accessor (line 42). -/
def currentMigrationTool (s : MigratorState) : Nat := s.currentMigratable.migrationTool

/-- The `currentModelId` accessor (line 46). -/
def currentModelId (s : MigratorState) : String := s.currentMigratable.id

/-- Classifier for the events `completeTheMigration` can put on the trace. -/
def isCompleteEvent : Event → Bool
  | Event.callVolunteerForMigration => true
  | Event.callAttach => true
  | Event.callHaveMigrationTask => true
  | Event.callFinalizeMigration _ => true
  | Event.callCompleteMigrationTask => true
  | _ => false

/-- Classifier for `migrationNotSupported` emissions. -/
def isNotSupportedEvent : Event → Bool
  | Event.emitMigrationNotSupported _ => true
  | _ => false

/-- Classifier for `dispose()` calls. -/
def isDisposeEvent : Event → Bool
  | Event.callDispose _ => true
  | _ => false

/-- Classifier for the events `prepareTheMigration` can put on the trace. -/
def isPrepareEvent : Event → Bool
  | Event.callSupportsVersion _ => true
  | Event.callCreateDetached _ => true
  | Event.callLoadExistingPaused _ _ => true
  | Event.callExportData _ => true
  | Event.callDispose _ => true
  | Event.callSupportsDataFormat _ _ => true
  | Event.callTransform _ _ => true
  | Event.callImportData _ _ => true
  | Event.emitMigrationNotSupported _ => true
  | _ => false

/-- Classifier for the single event the `.then`/`.catch` chain appends. -/
def isContinuationTailEvent : Event → Bool
  | Event.consoleError _ => true
  | Event.invokeDispatcher => true
  | _ => false

/-- Trace of an entry-point run (empty when it threw synchronously). -/
def resultTrace (r : Except String StepResult) : List Event :=
  match r with
  | Except.ok r => r.trace
  | Except.error _ => []

/-- Final state of an entry-point run (`default` irrelevant: only used on
runs known to succeed). -/
def resultState (s : MigratorState) (r : Except String StepResult) : MigratorState :=
  match r with
  | Except.ok r => r.state
  | Except.error _ => s

/-! ### Concrete inputs used by witnesses and counterexamples -/

/-- A configuration with a data-transformation callback supplied. -/
def sampleCfg : MigratorConfig := { hasTransformCallback := true }

/-- A sample accepted migration. -/
def sampleAcc : AcceptedMigration := { newVersion := "v2", migrationSequenceNumber := 10 }

/-- The state right after construction on a sample initial triple. -/
def sampleState : MigratorState := migratorInit 0 1 "old-container"

/-- A sample tool observation with everything present, parametrized by phase. -/
def sampleTool (ms : MigrationState) : ToolObs :=
  { migrationState := ms, connected := true, acceptedMigration := some sampleAcc,
    newContainerId := some "new-container" }

/-- A sample happy-path attempt environment. -/
def sampleAttemptEnv : AttemptEnv :=
  { supportsVersion := true, detachedModelId := 2, detachedVersion := "v2",
    exportModelId := 3, exportedData := 7, supportsDataFormat := true,
    transformResult := some 8, stateAfterPrepare := MigrationState.migrating,
    volunteerResult := some true, connectedInCatch := false,
    newContainerIdAfterVolunteer := none, attachResult := "new-container",
    haveMigrationTask := true, connectedAtEnd := true,
    newContainerIdAtEnd := some "new-container" }

/-- A sample load environment. -/
def sampleLoadEnv : LoadEnv :=
  { supportsVersion := true, loadedModelId := 4, loadedToolId := 5 }

/-- The dispatcher run on the sample migrated-phase input. -/
def sampleLoadRun : Except String StepResult :=
  takeAppropriateActionForCurrentMigratable sampleCfg (sampleTool MigrationState.migrated)
    sampleAttemptEnv sampleLoadEnv sampleState

/-- The result of `sampleLoadRun` (it is an `ok`). -/
def sampleLoadResult : StepResult :=
  match sampleLoadRun with
  | Except.ok r => r
  | Except.error _ => { state := sampleState, trace := [], error := none }

/-- An attempt environment whose prepare phase abandons on an unsupported
version while the tool still reports "migrating": the recoverable-abandonment
scenario that then trips the `completeTheMigration` assertion. -/
def cexEnv : AttemptEnv :=
  { sampleAttemptEnv with supportsVersion := false }

/-- A state for the C10 amended witness: the prepare phase is already cached,
so the attempt keeps `_migrationP` defined when it rejects. -/
def cex10State : MigratorState :=
  { sampleState with preparedDetachedModel := some 2 }

/-- An attempt environment that rejects on the assignment assertion:
volunteering resolves `false` while no other client has finished. -/
def cex10Env : AttemptEnv :=
  { sampleAttemptEnv with volunteerResult := some false }

/-- A migration-attempt run on the sample migrating-phase input. -/
def sampleAttemptRun : Except String StepResult :=
  ensureMigratingRun sampleCfg (sampleTool MigrationState.migrating) sampleAttemptEnv
    sampleState

/-- The result of `sampleAttemptRun` (it is an `ok`). -/
def sampleAttemptResult : StepResult :=
  match sampleAttemptRun with
  | Except.ok r => r
  | Except.error _ => { state := sampleState, trace := [], error := none }

/-- The attempt run on the unsupported-version abandonment scenario. -/
def cexRun : Except String StepResult :=
  ensureMigratingRun sampleCfg (sampleTool MigrationState.migrating) cexEnv sampleState

/-- The result of `cexRun` (it is an `ok`). -/
def cexResult : StepResult :=
  match cexRun with
  | Except.ok r => r
  | Except.error _ => { state := sampleState, trace := [], error := none }

/-- A disconnected tool observation in the migrating phase. -/
def cex8Tool : ToolObs :=
  { sampleTool MigrationState.migrating with connected := false }

/-- A state with a migration attempt already in flight. -/
def cex8State : MigratorState := { sampleState with migrationP := true }

/-- An attempt environment where volunteering throws while disconnected. -/
def cex5Env : AttemptEnv :=
  { sampleAttemptEnv with volunteerResult := none, connectedInCatch := false }

/-- The attempt run of the failed-assignment rejection scenario. -/
def cex10Run : Except String StepResult :=
  ensureMigratingRun sampleCfg (sampleTool MigrationState.migrating) cex10Env cex10State

/-- The result of `cex10Run` (it is an `ok`). -/
def cex10Result : StepResult :=
  match cex10Run with
  | Except.ok r => r
  | Except.error _ => { state := cex10State, trace := [], error := none }

/-! ### Helper lemmas shared by several claims -/

theorem prepare_frame (cfg : MigratorConfig) (env : AttemptEnv)
    (acc : AcceptedMigration) (s : MigratorState) :
    (prepareTheMigration cfg env acc s).state.currentMigratable = s.currentMigratable ∧
    (prepareTheMigration cfg env acc s).state.migratedLoadP = s.migratedLoadP ∧
    (prepareTheMigration cfg env acc s).state.preparedModelId = s.preparedModelId ∧
    ((prepareTheMigration cfg env acc s).state.preparedDetachedModel = s.preparedDetachedModel ∨
      (prepareTheMigration cfg env acc s).state.preparedDetachedModel = some env.detachedModelId) ∧
    (prepareTheMigration cfg env acc s).error = none := by
  simp only [prepareTheMigration]
  repeat' split
  all_goals simp

theorem complete_frame (env : AttemptEnv) (s : MigratorState) :
    (completeTheMigration env s).state.currentMigratable = s.currentMigratable ∧
    (completeTheMigration env s).state.migratedLoadP = s.migratedLoadP ∧
    (completeTheMigration env s).state.migrationP = s.migrationP ∧
    (completeTheMigration env s).state.preparedDetachedModel = s.preparedDetachedModel ∧
    ((completeTheMigration env s).state.preparedModelId = s.preparedModelId ∨
      (s.preparedModelId = none ∧
        (completeTheMigration env s).state.preparedModelId = some env.attachResult)) := by
  simp only [completeTheMigration]
  repeat' split
  all_goals simp_all

theorem doTheMigration_frame (cfg : MigratorConfig) (env : AttemptEnv)
    (acc : AcceptedMigration) (s : MigratorState) :
    (doTheMigration cfg env acc s).state.currentMigratable = s.currentMigratable ∧
    (doTheMigration cfg env acc s).state.migratedLoadP = s.migratedLoadP ∧
    ((doTheMigration cfg env acc s).state.preparedDetachedModel = s.preparedDetachedModel ∨
      (doTheMigration cfg env acc s).state.preparedDetachedModel = some env.detachedModelId) ∧
    ((doTheMigration cfg env acc s).state.preparedModelId = s.preparedModelId ∨
      (s.preparedModelId = none ∧
        (doTheMigration cfg env acc s).state.preparedModelId = some env.attachResult)) := by
  obtain ⟨p1, p2, p3, p4, -⟩ := prepare_frame cfg env acc s
  obtain ⟨cs1, cs2, cs3, cs4, cs5⟩ :=
    complete_frame env (prepareTheMigration cfg env acc s).state
  obtain ⟨ct1, ct2, ct3, ct4, ct5⟩ := complete_frame env s
  simp only [doTheMigration]
  by_cases hpd : s.preparedDetachedModel = none <;>
    by_cases hst : env.stateAfterPrepare = MigrationState.migrating <;>
      simp_all

theorem continuation_frame (env : AttemptEnv) (r : StepResult) :
    (migrationContinuation env r).state.currentMigratable = r.state.currentMigratable ∧
    (migrationContinuation env r).state.migratedLoadP = r.state.migratedLoadP ∧
    (migrationContinuation env r).state.preparedDetachedModel
      = r.state.preparedDetachedModel ∧
    (migrationContinuation env r).state.preparedModelId = r.state.preparedModelId ∧
    (migrationContinuation env r).error = none := by
  simp only [migrationContinuation]
  repeat' split
  all_goals simp

theorem ensureMigratingRun_frame (cfg : MigratorConfig) (tool : ToolObs)
    (env : AttemptEnv) (s : MigratorState) (r : StepResult)
    (h : ensureMigratingRun cfg tool env s = Except.ok r) :
    r.state.currentMigratable = s.currentMigratable ∧
    r.state.migratedLoadP = s.migratedLoadP ∧
    (r.state.preparedDetachedModel = s.preparedDetachedModel ∨
      r.state.preparedDetachedModel = some env.detachedModelId) ∧
    (r.state.preparedModelId = s.preparedModelId ∨
      (s.preparedModelId = none ∧ r.state.preparedModelId = some env.attachResult)) ∧
    r.error = none := by
  unfold ensureMigratingRun ensureMigratingSync at h
  by_cases hc : tool.connected = false
  · simp [hc] at h
    subst h; simp
  · simp only [Bool.not_eq_false] at hc
    by_cases hmp : s.migrationP = true
    · simp [hc, hmp] at h
      subst h; simp
    · by_cases hlp : s.migratedLoadP = true
      · simp [hc, hmp, hlp] at h
      · cases hacc : tool.acceptedMigration with
        | none => simp [hc, hmp, hlp, hacc] at h
        | some acc =>
          simp [hc, hmp, hlp, hacc] at h
          obtain ⟨d1, d2, d3, d4⟩ :=
            doTheMigration_frame cfg env acc { s with migrationP := true }
          obtain ⟨k1, k2, k3, k4, k5⟩ :=
            continuation_frame env (doTheMigration cfg env acc { s with migrationP := true })
          subst h
          refine ⟨?_, ?_, ?_, ?_, ?_⟩ <;> simp_all

theorem ensureMigratingRun_disconnected (cfg : MigratorConfig) (tool : ToolObs)
    (env : AttemptEnv) (s : MigratorState) (hc : tool.connected = false) :
    ensureMigratingRun cfg tool env s =
      Except.ok { state := s, trace := [Event.registerOnceConnected], error := none } := by
  unfold ensureMigratingRun ensureMigratingSync
  simp [hc]

theorem ensureMigratingRun_noop (cfg : MigratorConfig) (tool : ToolObs)
    (env : AttemptEnv) (s : MigratorState) (hc : tool.connected = true)
    (hmp : s.migrationP = true) :
    ensureMigratingRun cfg tool env s =
      Except.ok { state := s, trace := [], error := none } := by
  unfold ensureMigratingRun ensureMigratingSync
  simp [hc, hmp]

theorem ensureMigratingRun_throw_load (cfg : MigratorConfig) (tool : ToolObs)
    (env : AttemptEnv) (s : MigratorState) (hc : tool.connected = true)
    (hmp : s.migrationP = false) (hlp : s.migratedLoadP = true) :
    ensureMigratingRun cfg tool env s =
      Except.error "Cannot perform migration, we are currently trying to load" := by
  unfold ensureMigratingRun ensureMigratingSync
  simp [hc, hmp, hlp]

theorem ensureMigratingRun_throw_noacc (cfg : MigratorConfig) (tool : ToolObs)
    (env : AttemptEnv) (s : MigratorState) (hc : tool.connected = true)
    (hmp : s.migrationP = false) (hlp : s.migratedLoadP = false)
    (hacc : tool.acceptedMigration = none) :
    ensureMigratingRun cfg tool env s =
      Except.error "Expect an accepted migration before migration starts" := by
  unfold ensureMigratingRun ensureMigratingSync
  simp [hc, hmp, hlp, hacc]

theorem ensureMigratingRun_started (cfg : MigratorConfig) (tool : ToolObs)
    (env : AttemptEnv) (s : MigratorState) (acc : AcceptedMigration)
    (hc : tool.connected = true) (hmp : s.migrationP = false)
    (hlp : s.migratedLoadP = false) (hacc : tool.acceptedMigration = some acc) :
    ensureMigratingRun cfg tool env s =
      Except.ok
        { state := (migrationContinuation env
            (doTheMigration cfg env acc { s with migrationP := true })).state,
          trace := Event.emitMigrating ::
            (migrationContinuation env
              (doTheMigration cfg env acc { s with migrationP := true })).trace,
          error := (migrationContinuation env
            (doTheMigration cfg env acc { s with migrationP := true })).error } := by
  unfold ensureMigratingRun ensureMigratingSync
  simp [hc, hmp, hlp, hacc]

theorem ensureLoadingRun_noop (tool : ToolObs) (env : LoadEnv) (s : MigratorState)
    (hlp : s.migratedLoadP = true) :
    ensureLoadingRun tool env s =
      Except.ok { state := s, trace := [], error := none } := by
  unfold ensureLoadingRun ensureLoadingSync
  simp [hlp]

theorem ensureLoadingRun_throw_mig (tool : ToolObs) (env : LoadEnv) (s : MigratorState)
    (hlp : s.migratedLoadP = false) (hmp : s.migrationP = true) :
    ensureLoadingRun tool env s =
      Except.error "Cannot start loading the migrated before migration is complete" := by
  unfold ensureLoadingRun ensureLoadingSync
  simp [hlp, hmp]

theorem ensureLoadingRun_throw_noacc (tool : ToolObs) (env : LoadEnv) (s : MigratorState)
    (hlp : s.migratedLoadP = false) (hmp : s.migrationP = false)
    (hacc : tool.acceptedMigration = none) :
    ensureLoadingRun tool env s =
      Except.error "Expect an accepted version before migration starts" := by
  unfold ensureLoadingRun ensureLoadingSync
  simp [hlp, hmp, hacc]

theorem ensureLoadingRun_throw_noid (tool : ToolObs) (env : LoadEnv) (s : MigratorState)
    (acc : AcceptedMigration) (hlp : s.migratedLoadP = false) (hmp : s.migrationP = false)
    (hacc : tool.acceptedMigration = some acc) (hnc : tool.newContainerId = none) :
    ensureLoadingRun tool env s =
      Except.error "Migration ended without a new container being created" := by
  unfold ensureLoadingRun ensureLoadingSync
  simp [hlp, hmp, hacc, hnc]

theorem ensureLoadingRun_started (tool : ToolObs) (env : LoadEnv) (s : MigratorState)
    (acc : AcceptedMigration) (migratedId : String)
    (hlp : s.migratedLoadP = false) (hmp : s.migrationP = false)
    (hacc : tool.acceptedMigration = some acc)
    (hnc : tool.newContainerId = some migratedId) :
    ensureLoadingRun tool env s =
      Except.ok (doTheLoad env acc migratedId { s with migratedLoadP := true }) := by
  unfold ensureLoadingRun ensureLoadingSync
  simp [hlp, hmp, hacc, hnc]

theorem doTheMigration_skip_prepare (cfg : MigratorConfig) (env : AttemptEnv)
    (acc : AcceptedMigration) (s : MigratorState) (d : Nat)
    (hpd : s.preparedDetachedModel = some d) :
    doTheMigration cfg env acc s =
      if env.stateAfterPrepare ≠ MigrationState.migrating then
        { state := s, trace := [], error := none }
      else
        let r2 := completeTheMigration env s
        { state := r2.state, trace := r2.trace, error := r2.error } := by
  unfold doTheMigration
  simp [hpd]

theorem doTheMigration_with_prepare (cfg : MigratorConfig) (env : AttemptEnv)
    (acc : AcceptedMigration) (s : MigratorState)
    (hpd : s.preparedDetachedModel = none) :
    doTheMigration cfg env acc s =
      (let r1 := prepareTheMigration cfg env acc s
       if env.stateAfterPrepare ≠ MigrationState.migrating then
         { state := r1.state, trace := r1.trace, error := none }
       else
         let r2 := completeTheMigration env r1.state
         { state := r2.state, trace := r1.trace ++ r2.trace, error := r2.error }) := by
  unfold doTheMigration
  simp [hpd]

theorem prepare_unsupported (cfg : MigratorConfig) (env : AttemptEnv)
    (acc : AcceptedMigration) (s : MigratorState)
    (hsv : env.supportsVersion = false) :
    prepareTheMigration cfg env acc s =
      { state := { s with migrationP := false },
        trace := [Event.callSupportsVersion acc.newVersion,
                  Event.emitMigrationNotSupported acc.newVersion],
        error := none } := by
  unfold prepareTheMigration
  simp [hsv]

theorem prepare_native (cfg : MigratorConfig) (env : AttemptEnv)
    (acc : AcceptedMigration) (s : MigratorState)
    (hsv : env.supportsVersion = true) (hsd : env.supportsDataFormat = true) :
    prepareTheMigration cfg env acc s =
      { state := { s with preparedDetachedModel := some env.detachedModelId },
        trace := [Event.callSupportsVersion acc.newVersion,
                  Event.callCreateDetached acc.newVersion,
                  Event.callLoadExistingPaused s.currentMigratable.id
                    acc.migrationSequenceNumber,
                  Event.callExportData env.exportModelId,
                  Event.callDispose env.exportModelId,
                  Event.callSupportsDataFormat env.detachedModelId env.exportedData,
                  Event.callImportData env.detachedModelId env.exportedData],
        error := none } := by
  unfold prepareTheMigration
  simp [hsv, hsd]

theorem prepare_transform_ok (cfg : MigratorConfig) (env : AttemptEnv)
    (acc : AcceptedMigration) (s : MigratorState) (d : Nat)
    (hsv : env.supportsVersion = true) (hsd : env.supportsDataFormat = false)
    (htc : cfg.hasTransformCallback = true) (htr : env.transformResult = some d) :
    prepareTheMigration cfg env acc s =
      { state := { s with preparedDetachedModel := some env.detachedModelId },
        trace := [Event.callSupportsVersion acc.newVersion,
                  Event.callCreateDetached acc.newVersion,
                  Event.callLoadExistingPaused s.currentMigratable.id
                    acc.migrationSequenceNumber,
                  Event.callExportData env.exportModelId,
                  Event.callDispose env.exportModelId,
                  Event.callSupportsDataFormat env.detachedModelId env.exportedData,
                  Event.callTransform env.exportedData env.detachedVersion,
                  Event.callImportData env.detachedModelId d],
        error := none } := by
  unfold prepareTheMigration
  simp [hsv, hsd, htc, htr]

theorem prepare_transform_throw (cfg : MigratorConfig) (env : AttemptEnv)
    (acc : AcceptedMigration) (s : MigratorState)
    (hsv : env.supportsVersion = true) (hsd : env.supportsDataFormat = false)
    (htc : cfg.hasTransformCallback = true) (htr : env.transformResult = none) :
    prepareTheMigration cfg env acc s =
      { state := { s with migrationP := false },
        trace := [Event.callSupportsVersion acc.newVersion,
                  Event.callCreateDetached acc.newVersion,
                  Event.callLoadExistingPaused s.currentMigratable.id
                    acc.migrationSequenceNumber,
                  Event.callExportData env.exportModelId,
                  Event.callDispose env.exportModelId,
                  Event.callSupportsDataFormat env.detachedModelId env.exportedData,
                  Event.callTransform env.exportedData env.detachedVersion,
                  Event.emitMigrationNotSupported acc.newVersion],
        error := none } := by
  unfold prepareTheMigration
  simp [hsv, hsd, htc, htr]

theorem prepare_no_callback (cfg : MigratorConfig) (env : AttemptEnv)
    (acc : AcceptedMigration) (s : MigratorState)
    (hsv : env.supportsVersion = true) (hsd : env.supportsDataFormat = false)
    (htc : cfg.hasTransformCallback = false) :
    prepareTheMigration cfg env acc s =
      { state := { s with migrationP := false },
        trace := [Event.callSupportsVersion acc.newVersion,
                  Event.callCreateDetached acc.newVersion,
                  Event.callLoadExistingPaused s.currentMigratable.id
                    acc.migrationSequenceNumber,
                  Event.callExportData env.exportModelId,
                  Event.callDispose env.exportModelId,
                  Event.callSupportsDataFormat env.detachedModelId env.exportedData,
                  Event.emitMigrationNotSupported acc.newVersion],
        error := none } := by
  unfold prepareTheMigration
  simp [hsv, hsd, htc]

theorem complete_unprepared (env : AttemptEnv) (s : MigratorState)
    (hpd : s.preparedDetachedModel = none) :
    completeTheMigration env s =
      { state := s, trace := [],
        error := some "this._preparedDetachedModel should be defined" } := by
  unfold completeTheMigration
  simp [hpd]

theorem complete_volunteer_throw_disconnected (env : AttemptEnv) (s : MigratorState)
    (d : Nat) (hpd : s.preparedDetachedModel = some d)
    (hv : env.volunteerResult = none) (hcc : env.connectedInCatch = false) :
    completeTheMigration env s =
      { state := s, trace := [Event.callVolunteerForMigration], error := none } := by
  unfold completeTheMigration
  simp [hpd, hv, hcc]

theorem complete_volunteer_throw_connected (env : AttemptEnv) (s : MigratorState)
    (d : Nat) (hpd : s.preparedDetachedModel = some d)
    (hv : env.volunteerResult = none) (hcc : env.connectedInCatch = true) :
    completeTheMigration env s =
      { state := s, trace := [Event.callVolunteerForMigration],
        error := some "We should be disconnected" } := by
  unfold completeTheMigration
  simp [hpd, hv, hcc]

theorem complete_race_lost (env : AttemptEnv) (s : MigratorState)
    (d : Nat) (b : Bool) (cid : String) (hpd : s.preparedDetachedModel = some d)
    (hv : env.volunteerResult = some b)
    (hnc : env.newContainerIdAfterVolunteer = some cid) :
    completeTheMigration env s =
      { state := s, trace := [Event.callVolunteerForMigration], error := none } := by
  unfold completeTheMigration
  simp [hpd, hv, hnc]

theorem complete_not_assigned (env : AttemptEnv) (s : MigratorState)
    (d : Nat) (hpd : s.preparedDetachedModel = some d)
    (hv : env.volunteerResult = some false)
    (hnc : env.newContainerIdAfterVolunteer = none) :
    completeTheMigration env s =
      { state := s, trace := [Event.callVolunteerForMigration],
        error := some "We should be assigned the migration task" } := by
  unfold completeTheMigration
  simp [hpd, hv, hnc]

theorem complete_attach_lost_task (env : AttemptEnv) (s : MigratorState)
    (d : Nat) (hpd : s.preparedDetachedModel = some d)
    (hv : env.volunteerResult = some true)
    (hnc : env.newContainerIdAfterVolunteer = none)
    (hpm : s.preparedModelId = none) (hmt : env.haveMigrationTask = false) :
    completeTheMigration env s =
      { state := { s with preparedModelId := some env.attachResult },
        trace := [Event.callVolunteerForMigration, Event.callAttach,
                  Event.callHaveMigrationTask],
        error := none } := by
  unfold completeTheMigration
  simp [hpd, hv, hnc, hpm, hmt]

theorem complete_attach_finalize (env : AttemptEnv) (s : MigratorState)
    (d : Nat) (hpd : s.preparedDetachedModel = some d)
    (hv : env.volunteerResult = some true)
    (hnc : env.newContainerIdAfterVolunteer = none)
    (hpm : s.preparedModelId = none) (hmt : env.haveMigrationTask = true) :
    completeTheMigration env s =
      { state := { s with preparedModelId := some env.attachResult },
        trace := [Event.callVolunteerForMigration, Event.callAttach,
                  Event.callHaveMigrationTask,
                  Event.callFinalizeMigration env.attachResult,
                  Event.callCompleteMigrationTask],
        error := none } := by
  unfold completeTheMigration
  simp [hpd, hv, hnc, hpm, hmt]

theorem complete_cached_lost_task (env : AttemptEnv) (s : MigratorState)
    (d : Nat) (i : String) (hpd : s.preparedDetachedModel = some d)
    (hv : env.volunteerResult = some true)
    (hnc : env.newContainerIdAfterVolunteer = none)
    (hpm : s.preparedModelId = some i) (hmt : env.haveMigrationTask = false) :
    completeTheMigration env s =
      { state := s,
        trace := [Event.callVolunteerForMigration, Event.callHaveMigrationTask],
        error := none } := by
  unfold completeTheMigration
  simp [hpd, hv, hnc, hpm, hmt]

theorem complete_cached_finalize (env : AttemptEnv) (s : MigratorState)
    (d : Nat) (i : String) (hpd : s.preparedDetachedModel = some d)
    (hv : env.volunteerResult = some true)
    (hnc : env.newContainerIdAfterVolunteer = none)
    (hpm : s.preparedModelId = some i) (hmt : env.haveMigrationTask = true) :
    completeTheMigration env s =
      { state := s,
        trace := [Event.callVolunteerForMigration, Event.callHaveMigrationTask,
                  Event.callFinalizeMigration i, Event.callCompleteMigrationTask],
        error := none } := by
  unfold completeTheMigration
  simp [hpd, hv, hnc, hpm, hmt]

theorem complete_trace_events (env : AttemptEnv) (s : MigratorState) :
    (completeTheMigration env s).trace.all isCompleteEvent = true := by
  simp only [completeTheMigration]
  repeat' split
  all_goals rfl

theorem continuation_rejected (env : AttemptEnv) (r : StepResult) (e : String)
    (he : r.error = some e) :
    migrationContinuation env r =
      { state := r.state, trace := r.trace ++ [Event.consoleError e], error := none } := by
  unfold migrationContinuation
  simp [he]

theorem continuation_then_assert_fails (env : AttemptEnv) (r : StepResult)
    (he : r.error = none) (hc : env.connectedAtEnd = true)
    (hn : env.newContainerIdAtEnd = none) :
    migrationContinuation env r =
      { state := r.state,
        trace := r.trace ++ [Event.consoleError "newContainerId should be defined"],
        error := none } := by
  unfold migrationContinuation
  simp [he, hc, hn]

theorem continuation_resolved (env : AttemptEnv) (r : StepResult)
    (he : r.error = none)
    (hend : ¬(env.connectedAtEnd = true ∧ env.newContainerIdAtEnd = none)) :
    migrationContinuation env r =
      { state := { r.state with migrationP := false },
        trace := r.trace ++ [Event.invokeDispatcher], error := none } := by
  unfold migrationContinuation
  simp only [he]
  rw [if_neg]
  exact fun hh => hend ⟨hh.1, hh.2⟩

theorem ensureLoadingRun_swap_cases (tool : ToolObs) (env : LoadEnv)
    (s : MigratorState) (r : StepResult)
    (h : ensureLoadingRun tool env s = Except.ok r) :
    (r.state.currentMigratable = s.currentMigratable ∧
      r.state.preparedDetachedModel = s.preparedDetachedModel ∧
      r.state.preparedModelId = s.preparedModelId) ∨
    (r.state.preparedDetachedModel = none ∧ r.state.preparedModelId = none ∧
      ∃ migratedId, tool.newContainerId = some migratedId ∧
        r.state.currentMigratable =
          { model := env.loadedModelId, migrationTool := env.loadedToolId,
            id := migratedId }) := by
  by_cases hlp : s.migratedLoadP = true
  · rw [ensureLoadingRun_noop tool env s hlp] at h
    simp only [Except.ok.injEq] at h
    subst h
    left; exact ⟨rfl, rfl, rfl⟩
  · simp only [Bool.not_eq_true] at hlp
    by_cases hmp : s.migrationP = true
    · rw [ensureLoadingRun_throw_mig tool env s hlp hmp] at h
      simp at h
    · simp only [Bool.not_eq_true] at hmp
      cases hacc : tool.acceptedMigration with
      | none =>
        rw [ensureLoadingRun_throw_noacc tool env s hlp hmp hacc] at h
        simp at h
      | some acc =>
        cases hnc : tool.newContainerId with
        | none =>
          rw [ensureLoadingRun_throw_noid tool env s acc hlp hmp hacc hnc] at h
          simp at h
        | some migratedId =>
          rw [ensureLoadingRun_started tool env s acc migratedId hlp hmp hacc hnc] at h
          simp only [Except.ok.injEq] at h
          subst h
          unfold doTheLoad
          by_cases hsv : env.supportsVersion = false
          · left
            simp [hsv]
          · simp only [Bool.not_eq_false] at hsv
            right
            simp only [hsv, Bool.not_true]
            exact ⟨by simp, by simp, migratedId, rfl, by simp⟩

/-- C1: readers of `currentModel` / `currentMigrationTool` / `currentModelId`
always see a mutually consistent triple from a single ActiveSession: the
accessors are the three projections of the single `_currentMigratable`
record, the record is written whole at construction, a migration attempt
never changes it, and the only other mutation is the single whole-record
replacement that the load executor builds from one `loadExisting` result. -/
theorem C1_consistent_triple_single_swap (cfg : MigratorConfig) (tool : ToolObs)
    (aenv : AttemptEnv) (lenv : LoadEnv) (s : MigratorState) (r : StepResult) :
    (∀ st : MigratorState,
      currentModel st = st.currentMigratable.model ∧
      currentMigrationTool st = st.currentMigratable.migrationTool ∧
      currentModelId st = st.currentMigratable.id) ∧
    (∀ (model migrationTool : Nat) (id : String),
      (migratorInit model migrationTool id).currentMigratable =
        { model := model, migrationTool := migrationTool, id := id }) ∧
    (takeAppropriateActionForCurrentMigratable cfg tool aenv lenv s = Except.ok r →
      (r.state.currentMigratable = s.currentMigratable ∨
        (tool.migrationState = MigrationState.migrated ∧ ∃ migratedId,
          tool.newContainerId = some migratedId ∧
          r.state.currentMigratable =
            { model := lenv.loadedModelId, migrationTool := lenv.loadedToolId,
              id := migratedId }))) ∧
    (tool.migrationState = MigrationState.migrating →
      takeAppropriateActionForCurrentMigratable cfg tool aenv lenv s = Except.ok r →
      r.state.currentMigratable = s.currentMigratable) := by
  refine ⟨fun st => ⟨rfl, rfl, rfl⟩, fun model migrationTool id => rfl, ?_, ?_⟩
  · intro h
    unfold takeAppropriateActionForCurrentMigratable at h
    cases hms : tool.migrationState with
    | collaborating =>
      rw [hms] at h
      simp only [Except.ok.injEq] at h
      subst h
      exact Or.inl rfl
    | migrating =>
      rw [hms] at h
      exact Or.inl (ensureMigratingRun_frame cfg tool aenv s r h).1
    | migrated =>
      rw [hms] at h
      rcases ensureLoadingRun_swap_cases tool lenv s r h with ⟨h1, -, -⟩ | ⟨-, -, hsw⟩
      · exact Or.inl h1
      · exact Or.inr ⟨rfl, hsw⟩
  · intro hms h
    unfold takeAppropriateActionForCurrentMigratable at h
    rw [hms] at h
    exact (ensureMigratingRun_frame cfg tool aenv s r h).1

/-- C2: the two attempt entry points throw synchronously exactly on protocol
violations: `ensureMigrating` called while connected with no migration in
flight throws iff a load is in flight or `acceptedMigration` is undefined;
`ensureLoading` called with no load in flight throws iff a migration is in
flight, `acceptedMigration` is undefined, or `newContainerId` is undefined;
in every other case neither entry point throws synchronously. -/
theorem C2_sync_throws_iff_protocol_violation (cfg : MigratorConfig)
    (tool : ToolObs) (aenv : AttemptEnv) (lenv : LoadEnv) (s : MigratorState) :
    (tool.connected = true → s.migrationP = false →
      ((∃ m, ensureMigratingRun cfg tool aenv s = Except.error m) ↔
        (s.migratedLoadP = true ∨ tool.acceptedMigration = none))) ∧
    ((tool.connected = false ∨ s.migrationP = true) →
      ∀ m, ensureMigratingRun cfg tool aenv s ≠ Except.error m) ∧
    (s.migratedLoadP = false →
      ((∃ m, ensureLoadingRun tool lenv s = Except.error m) ↔
        (s.migrationP = true ∨ tool.acceptedMigration = none ∨
          tool.newContainerId = none))) ∧
    (s.migratedLoadP = true → ∀ m, ensureLoadingRun tool lenv s ≠ Except.error m) := by
  refine ⟨?_, ?_, ?_, ?_⟩
  · intro hc hmp
    constructor
    · rintro ⟨m, hm⟩
      by_cases hlp : s.migratedLoadP = true
      · exact Or.inl hlp
      · simp only [Bool.not_eq_true] at hlp
        cases hacc : tool.acceptedMigration with
        | none => exact Or.inr rfl
        | some acc =>
          rw [ensureMigratingRun_started cfg tool aenv s acc hc hmp hlp hacc] at hm
          simp at hm
    · rintro (hlp | hacc)
      · exact ⟨_, ensureMigratingRun_throw_load cfg tool aenv s hc hmp hlp⟩
      · by_cases hlp : s.migratedLoadP = true
        · exact ⟨_, ensureMigratingRun_throw_load cfg tool aenv s hc hmp hlp⟩
        · simp only [Bool.not_eq_true] at hlp
          exact ⟨_, ensureMigratingRun_throw_noacc cfg tool aenv s hc hmp hlp hacc⟩
  · rintro (hc | hmp) m hm
    · rw [ensureMigratingRun_disconnected cfg tool aenv s hc] at hm
      simp at hm
    · by_cases hc : tool.connected = false
      · rw [ensureMigratingRun_disconnected cfg tool aenv s hc] at hm
        simp at hm
      · simp only [Bool.not_eq_false] at hc
        rw [ensureMigratingRun_noop cfg tool aenv s hc hmp] at hm
        simp at hm
  · intro hlp
    constructor
    · rintro ⟨m, hm⟩
      by_cases hmp : s.migrationP = true
      · exact Or.inl hmp
      · simp only [Bool.not_eq_true] at hmp
        cases hacc : tool.acceptedMigration with
        | none => exact Or.inr (Or.inl rfl)
        | some acc =>
          cases hnc : tool.newContainerId with
          | none => exact Or.inr (Or.inr rfl)
          | some migratedId =>
            rw [ensureLoadingRun_started tool lenv s acc migratedId hlp hmp hacc hnc] at hm
            simp at hm
    · rintro (hmp | hacc | hnc)
      · exact ⟨_, ensureLoadingRun_throw_mig tool lenv s hlp hmp⟩
      · by_cases hmp : s.migrationP = true
        · exact ⟨_, ensureLoadingRun_throw_mig tool lenv s hlp hmp⟩
        · simp only [Bool.not_eq_true] at hmp
          exact ⟨_, ensureLoadingRun_throw_noacc tool lenv s hlp hmp hacc⟩
      · by_cases hmp : s.migrationP = true
        · exact ⟨_, ensureLoadingRun_throw_mig tool lenv s hlp hmp⟩
        · simp only [Bool.not_eq_true] at hmp
          cases hacc : tool.acceptedMigration with
          | none => exact ⟨_, ensureLoadingRun_throw_noacc tool lenv s hlp hmp hacc⟩
          | some acc =>
            exact ⟨_, ensureLoadingRun_throw_noid tool lenv s acc hlp hmp hacc hnc⟩
  · intro hlp m hm
    rw [ensureLoadingRun_noop tool lenv s hlp] at hm
    simp at hm

/-- C4: for every invocation, the dispatcher maps the current tool's phase to
exactly one action: "migrating" invokes the migration attempt executor,
"migrated" invokes the load executor, and any other phase (i.e.
"collaborating") registers a one-time listener for the tool's "migrating"
event and returns without other effect. -/
theorem C4_dispatcher_maps_phase_to_action (cfg : MigratorConfig)
    (tool : ToolObs) (aenv : AttemptEnv) (lenv : LoadEnv) (s : MigratorState) :
    (tool.migrationState = MigrationState.migrating →
      takeAppropriateActionForCurrentMigratable cfg tool aenv lenv s =
        ensureMigratingRun cfg tool aenv s) ∧
    (tool.migrationState = MigrationState.migrated →
      takeAppropriateActionForCurrentMigratable cfg tool aenv lenv s =
        ensureLoadingRun tool lenv s) ∧
    (tool.migrationState = MigrationState.collaborating →
      takeAppropriateActionForCurrentMigratable cfg tool aenv lenv s =
        Except.ok { state := s, trace := [Event.registerOnceMigrating], error := none }) := by
  refine ⟨?_, ?_, ?_⟩ <;> intro h <;>
    simp [takeAppropriateActionForCurrentMigratable, h]

theorem prepare_trace_events (cfg : MigratorConfig) (env : AttemptEnv)
    (acc : AcceptedMigration) (s : MigratorState) :
    (prepareTheMigration cfg env acc s).trace.all isPrepareEvent = true := by
  simp only [prepareTheMigration]
  repeat' split
  all_goals rfl

theorem continuation_tail (env : AttemptEnv) (r : StepResult) :
    ∃ e, (migrationContinuation env r).trace = r.trace ++ [e] ∧
      isContinuationTailEvent e = true := by
  unfold migrationContinuation
  repeat' split
  all_goals exact ⟨_, rfl, rfl⟩

theorem doTheMigration_trace_events (cfg : MigratorConfig) (env : AttemptEnv)
    (acc : AcceptedMigration) (s : MigratorState) :
    ∀ e ∈ (doTheMigration cfg env acc s).trace,
      isPrepareEvent e = true ∨ isCompleteEvent e = true := by
  have hp := prepare_trace_events cfg env acc s
  have hc := complete_trace_events env (prepareTheMigration cfg env acc s).state
  have hc2 := complete_trace_events env s
  rw [List.all_eq_true] at hp hc hc2
  unfold doTheMigration
  by_cases hpd : s.preparedDetachedModel = none <;>
    by_cases hst : env.stateAfterPrepare = MigrationState.migrating <;>
      simp only [hpd, hst, if_pos, if_neg, ite_true, ite_false, ne_eq,
        not_true_eq_false, not_false_eq_true] <;>
    intro e he
  · simp only [List.mem_append] at he
    rcases he with he | he
    · exact Or.inl (by simpa using hp e he)
    · exact Or.inr (by simpa using hc e he)
  · exact Or.inl (by simpa using hp e he)
  · simp only [List.nil_append] at he
    exact Or.inr (by simpa using hc2 e he)
  · simp at he

theorem run_trace_decomp (cfg : MigratorConfig) (tool : ToolObs) (env : AttemptEnv)
    (s : MigratorState) (acc : AcceptedMigration) (r : StepResult)
    (hc : tool.connected = true) (hmp : s.migrationP = false)
    (hlp : s.migratedLoadP = false) (hacc : tool.acceptedMigration = some acc)
    (h : ensureMigratingRun cfg tool env s = Except.ok r) :
    ∃ tail, isContinuationTailEvent tail = true ∧
      r.trace = Event.emitMigrating ::
        ((doTheMigration cfg env acc { s with migrationP := true }).trace ++ [tail]) ∧
      r.state = (migrationContinuation env
        (doTheMigration cfg env acc { s with migrationP := true })).state := by
  rw [ensureMigratingRun_started cfg tool env s acc hc hmp hlp hacc] at h
  simp only [Except.ok.injEq] at h
  subst h
  obtain ⟨tail, hteq, htail⟩ :=
    continuation_tail env (doTheMigration cfg env acc { s with migrationP := true })
  exact ⟨tail, htail, by rw [hteq], rfl⟩

theorem complete_no_attach_cached (env : AttemptEnv) (s : MigratorState) (i : String)
    (hpm : s.preparedModelId = some i) :
    Event.callAttach ∉ (completeTheMigration env s).trace ∧
    (completeTheMigration env s).state.preparedModelId = some i := by
  simp only [completeTheMigration]
  repeat' split
  all_goals simp_all

theorem doTheMigration_no_attach_cached (cfg : MigratorConfig) (env : AttemptEnv)
    (acc : AcceptedMigration) (s : MigratorState) (i : String)
    (hpm : s.preparedModelId = some i) :
    Event.callAttach ∉ (doTheMigration cfg env acc s).trace ∧
    (doTheMigration cfg env acc s).state.preparedModelId = some i := by
  have hpf := prepare_frame cfg env acc s
  have hptr := prepare_trace_events cfg env acc s
  rw [List.all_eq_true] at hptr
  have hcc := complete_no_attach_cached env (prepareTheMigration cfg env acc s).state i
    (by rw [hpf.2.2.1]; exact hpm)
  have hcc2 := complete_no_attach_cached env s i hpm
  unfold doTheMigration
  by_cases hpd : s.preparedDetachedModel = none <;>
    by_cases hst : env.stateAfterPrepare = MigrationState.migrating <;>
      simp only [hpd, hst, if_pos, if_neg, ite_true, ite_false, ne_eq,
        not_true_eq_false, not_false_eq_true]
  · constructor
    · intro hmem
      simp only [List.mem_append] at hmem
      rcases hmem with hmem | hmem
      · have hx := hptr _ hmem
        simp [isPrepareEvent] at hx
      · exact hcc.1 (by simpa using hmem)
    · exact hcc.2
  · constructor
    · intro hmem
      have hx := hptr _ (by simpa using hmem)
      simp [isPrepareEvent] at hx
    · rw [hpf.2.2.1]
      exact hpm
  · simpa using hcc2
  · simp [hpm]

theorem doTheMigration_skip_trace (cfg : MigratorConfig) (env : AttemptEnv)
    (acc : AcceptedMigration) (s : MigratorState) (d : Nat)
    (hpd : s.preparedDetachedModel = some d) :
    (∀ e ∈ (doTheMigration cfg env acc s).trace, isCompleteEvent e = true) ∧
    (doTheMigration cfg env acc s).state.preparedDetachedModel = some d := by
  have hct := complete_trace_events env s
  rw [List.all_eq_true] at hct
  have hcf := complete_frame env s
  rw [doTheMigration_skip_prepare cfg env acc s d hpd]
  by_cases hst : env.stateAfterPrepare = MigrationState.migrating <;>
    simp only [hst, if_pos, if_neg, ite_true, ite_false, ne_eq,
      not_true_eq_false, not_false_eq_true]
  · exact ⟨fun e he => by simpa using hct e he, by rw [hcf.2.2.2.1]; exact hpd⟩
  · exact ⟨by simp, hpd⟩

theorem doTheMigration_pmid_implies_prep (cfg : MigratorConfig) (env : AttemptEnv)
    (acc : AcceptedMigration) (s : MigratorState)
    (hpm : s.preparedModelId = none)
    (h2 : (doTheMigration cfg env acc s).state.preparedModelId ≠ none) :
    (doTheMigration cfg env acc s).state.preparedDetachedModel ≠ none := by
  cases hpd : s.preparedDetachedModel with
  | some d =>
    rw [(doTheMigration_skip_trace cfg env acc s d hpd).2]
    simp
  | none =>
    rw [doTheMigration_with_prepare cfg env acc s hpd] at h2 ⊢
    obtain ⟨-, -, hp3, -, -⟩ := prepare_frame cfg env acc s
    by_cases hst : env.stateAfterPrepare = MigrationState.migrating <;>
      simp only [hst, if_pos, if_neg, ite_true, ite_false, ne_eq,
        not_true_eq_false, not_false_eq_true] at h2 ⊢
    · cases hpp : (prepareTheMigration cfg env acc s).state.preparedDetachedModel with
      | none =>
        rw [complete_unprepared env (prepareTheMigration cfg env acc s).state hpp] at h2
        rw [hp3, hpm] at h2
        simp at h2
      | some x =>
        rw [(complete_frame env (prepareTheMigration cfg env acc s).state).2.2.2.1, hpp]
        simp
    · rw [hp3, hpm] at h2
      simp at h2

/-- C3: cache monotonicity.  Once `_preparedDetachedModel` is set, a re-entry
of the migration attempt skips the prepare phase entirely (no
`createDetached`, `loadExistingPaused`, `exportData` or `importData` call);
once `_preparedModelId` is set, `attach` is never called again; the attempt
can assign `_preparedModelId` only while `_preparedDetachedModel` is set; and
the two cache fields are cleared only by the load executor, together,
immediately after its whole-record session swap. -/
theorem C3_cache_monotonicity (cfg : MigratorConfig) (tool : ToolObs)
    (env : AttemptEnv) (lenv : LoadEnv) (s : MigratorState) (r : StepResult) :
    (∀ d, s.preparedDetachedModel = some d →
      ensureMigratingRun cfg tool env s = Except.ok r →
      (∀ v, Event.callCreateDetached v ∉ r.trace) ∧
      (∀ i n, Event.callLoadExistingPaused i n ∉ r.trace) ∧
      (∀ m, Event.callExportData m ∉ r.trace) ∧
      (∀ m dd, Event.callImportData m dd ∉ r.trace) ∧
      r.state.preparedDetachedModel = some d) ∧
    (∀ i, s.preparedModelId = some i →
      ensureMigratingRun cfg tool env s = Except.ok r →
      Event.callAttach ∉ r.trace ∧ r.state.preparedModelId = some i) ∧
    (s.preparedModelId = none → ensureMigratingRun cfg tool env s = Except.ok r →
      r.state.preparedModelId ≠ none → r.state.preparedDetachedModel ≠ none) ∧
    (ensureLoadingRun tool lenv s = Except.ok r →
      ((r.state.preparedDetachedModel = s.preparedDetachedModel ∧
        r.state.preparedModelId = s.preparedModelId ∧
        r.state.currentMigratable = s.currentMigratable) ∨
       (r.state.preparedDetachedModel = none ∧ r.state.preparedModelId = none ∧
        ∃ migratedId, tool.newContainerId = some migratedId ∧
          r.state.currentMigratable =
            { model := lenv.loadedModelId, migrationTool := lenv.loadedToolId,
              id := migratedId }))) := by
  refine ⟨?_, ?_, ?_, ?_⟩
  · intro d hpd h
    by_cases hc : tool.connected = false
    · rw [ensureMigratingRun_disconnected cfg tool env s hc] at h
      simp only [Except.ok.injEq] at h
      subst h
      simp [hpd]
    · simp only [Bool.not_eq_false] at hc
      by_cases hmp : s.migrationP = true
      · rw [ensureMigratingRun_noop cfg tool env s hc hmp] at h
        simp only [Except.ok.injEq] at h
        subst h
        simp [hpd]
      · simp only [Bool.not_eq_true] at hmp
        by_cases hlp : s.migratedLoadP = true
        · rw [ensureMigratingRun_throw_load cfg tool env s hc hmp hlp] at h
          simp at h
        · simp only [Bool.not_eq_true] at hlp
          cases hacc : tool.acceptedMigration with
          | none =>
            rw [ensureMigratingRun_throw_noacc cfg tool env s hc hmp hlp hacc] at h
            simp at h
          | some acc =>
            obtain ⟨tail, htail, htr, hstate⟩ :=
              run_trace_decomp cfg tool env s acc r hc hmp hlp hacc h
            obtain ⟨hskip, hkeep⟩ :=
              doTheMigration_skip_trace cfg env acc { s with migrationP := true } d hpd
            have hmem : ∀ e ∈ r.trace, isCompleteEvent e = true ∨
                isContinuationTailEvent e = true ∨ e = Event.emitMigrating := by
              intro e he
              rw [htr] at he
              simp only [List.mem_cons, List.mem_append, List.mem_singleton] at he
              rcases he with rfl | he | rfl | he
              · exact Or.inr (Or.inr rfl)
              · exact Or.inl (hskip e he)
              · exact Or.inr (Or.inl htail)
              · simp at he
            refine ⟨?_, ?_, ?_, ?_, ?_⟩
            · intro v hv
              rcases hmem _ hv with hx | hx | hx <;> simp [isCompleteEvent,
                isContinuationTailEvent] at hx
            · intro i n hv
              rcases hmem _ hv with hx | hx | hx <;> simp [isCompleteEvent,
                isContinuationTailEvent] at hx
            · intro m hv
              rcases hmem _ hv with hx | hx | hx <;> simp [isCompleteEvent,
                isContinuationTailEvent] at hx
            · intro m dd hv
              rcases hmem _ hv with hx | hx | hx <;> simp [isCompleteEvent,
                isContinuationTailEvent] at hx
            · rw [hstate, (continuation_frame env _).2.2.1]
              exact hkeep
  · intro i hpm h
    by_cases hc : tool.connected = false
    · rw [ensureMigratingRun_disconnected cfg tool env s hc] at h
      simp only [Except.ok.injEq] at h
      subst h
      simp [hpm]
    · simp only [Bool.not_eq_false] at hc
      by_cases hmp : s.migrationP = true
      · rw [ensureMigratingRun_noop cfg tool env s hc hmp] at h
        simp only [Except.ok.injEq] at h
        subst h
        simp [hpm]
      · simp only [Bool.not_eq_true] at hmp
        by_cases hlp : s.migratedLoadP = true
        · rw [ensureMigratingRun_throw_load cfg tool env s hc hmp hlp] at h
          simp at h
        · simp only [Bool.not_eq_true] at hlp
          cases hacc : tool.acceptedMigration with
          | none =>
            rw [ensureMigratingRun_throw_noacc cfg tool env s hc hmp hlp hacc] at h
            simp at h
          | some acc =>
            obtain ⟨tail, htail, htr, hstate⟩ :=
              run_trace_decomp cfg tool env s acc r hc hmp hlp hacc h
            obtain ⟨hna, hkeep⟩ :=
              doTheMigration_no_attach_cached cfg env acc { s with migrationP := true } i hpm
            constructor
            · intro hv
              rw [htr] at hv
              simp only [List.mem_cons, List.mem_append, List.mem_singleton] at hv
              rcases hv with hv | hv | hv | hv
              · exact absurd hv (by simp)
              · exact hna hv
              · rw [← hv] at htail
                simp [isContinuationTailEvent] at htail
              · simp at hv
            · rw [hstate, (continuation_frame env _).2.2.2.1]
              exact hkeep
  · intro hpm h h2
    by_cases hc : tool.connected = false
    · rw [ensureMigratingRun_disconnected cfg tool env s hc] at h
      simp only [Except.ok.injEq] at h
      subst h
      simp [hpm] at h2
    · simp only [Bool.not_eq_false] at hc
      by_cases hmp : s.migrationP = true
      · rw [ensureMigratingRun_noop cfg tool env s hc hmp] at h
        simp only [Except.ok.injEq] at h
        subst h
        simp [hpm] at h2
      · simp only [Bool.not_eq_true] at hmp
        by_cases hlp : s.migratedLoadP = true
        · rw [ensureMigratingRun_throw_load cfg tool env s hc hmp hlp] at h
          simp at h
        · simp only [Bool.not_eq_true] at hlp
          cases hacc : tool.acceptedMigration with
          | none =>
            rw [ensureMigratingRun_throw_noacc cfg tool env s hc hmp hlp hacc] at h
            simp at h
          | some acc =>
            obtain ⟨tail, htail, htr, hstate⟩ :=
              run_trace_decomp cfg tool env s acc r hc hmp hlp hacc h
            rw [hstate, (continuation_frame env _).2.2.2.1] at h2
            rw [hstate, (continuation_frame env _).2.2.1]
            exact doTheMigration_pmid_implies_prep cfg env acc
              { s with migrationP := true } hpm h2
  · intro h
    rcases ensureLoadingRun_swap_cases tool lenv s r h with ⟨h1, h2, h3⟩ | ⟨h1, h2, h3⟩
    · exact Or.inl ⟨h2, h3, h1⟩
    · exact Or.inr ⟨h1, h2, h3⟩

/-- C5: in the finalize phase, `finalizeMigration(preparedModelId)` followed
by `completeMigrationTask()` is called iff volunteering resolved,
`newContainerId` was still undefined, the volunteer result was `true`, and
`haveMigrationTask()` still held after attaching (attaching only happens when
no id was cached from a prior partial attempt); a volunteer throw with
connectivity false returns cleanly with no further calls, a volunteer throw
while connected is a fatal assertion, and an already-set `newContainerId`
returns without attach or finalize. -/
theorem C5_finalize_conditions (env : AttemptEnv) (s : MigratorState) (d : Nat)
    (hpd : s.preparedDetachedModel = some d) :
    (env.volunteerResult = none → env.connectedInCatch = false →
      completeTheMigration env s =
        { state := s, trace := [Event.callVolunteerForMigration], error := none }) ∧
    (env.volunteerResult = none → env.connectedInCatch = true →
      (completeTheMigration env s).error = some "We should be disconnected") ∧
    (∀ b cid, env.volunteerResult = some b →
      env.newContainerIdAfterVolunteer = some cid →
      completeTheMigration env s =
        { state := s, trace := [Event.callVolunteerForMigration], error := none }) ∧
    (env.volunteerResult = some false → env.newContainerIdAfterVolunteer = none →
      (completeTheMigration env s).error =
        some "We should be assigned the migration task" ∧
      (∀ i, Event.callFinalizeMigration i ∉ (completeTheMigration env s).trace)) ∧
    ((∃ i, Event.callFinalizeMigration i ∈ (completeTheMigration env s).trace) ↔
      (env.volunteerResult = some true ∧ env.newContainerIdAfterVolunteer = none ∧
        env.haveMigrationTask = true)) ∧
    (env.volunteerResult = some true → env.newContainerIdAfterVolunteer = none →
      env.haveMigrationTask = true →
      ((s.preparedModelId = none ∧ completeTheMigration env s =
          { state := { s with preparedModelId := some env.attachResult },
            trace := [Event.callVolunteerForMigration, Event.callAttach,
              Event.callHaveMigrationTask,
              Event.callFinalizeMigration env.attachResult,
              Event.callCompleteMigrationTask],
            error := none }) ∨
       (∃ i, s.preparedModelId = some i ∧ completeTheMigration env s =
          { state := s,
            trace := [Event.callVolunteerForMigration, Event.callHaveMigrationTask,
              Event.callFinalizeMigration i, Event.callCompleteMigrationTask],
            error := none }))) := by
  refine ⟨?_, ?_, ?_, ?_, ?_, ?_⟩
  · intro hv hcc
    exact complete_volunteer_throw_disconnected env s d hpd hv hcc
  · intro hv hcc
    rw [complete_volunteer_throw_connected env s d hpd hv hcc]
  · intro b cid hv hnc
    exact complete_race_lost env s d b cid hpd hv hnc
  · intro hv hnc
    rw [complete_not_assigned env s d hpd hv hnc]
    exact ⟨rfl, fun i => by simp⟩
  · constructor
    · rintro ⟨i, hi⟩
      cases hv : env.volunteerResult with
      | none =>
        by_cases hcc : env.connectedInCatch = true
        · rw [complete_volunteer_throw_connected env s d hpd hv hcc] at hi
          simp at hi
        · simp only [Bool.not_eq_true] at hcc
          rw [complete_volunteer_throw_disconnected env s d hpd hv hcc] at hi
          simp at hi
      | some b =>
        cases hnc : env.newContainerIdAfterVolunteer with
        | some cid =>
          rw [complete_race_lost env s d b cid hpd hv hnc] at hi
          simp at hi
        | none =>
          cases b with
          | false =>
            rw [complete_not_assigned env s d hpd hv hnc] at hi
            simp at hi
          | true =>
            refine ⟨rfl, rfl, ?_⟩
            by_cases hmt : env.haveMigrationTask = true
            · exact hmt
            · exfalso
              simp only [Bool.not_eq_true] at hmt
              cases hpm : s.preparedModelId with
              | none =>
                rw [complete_attach_lost_task env s d hpd hv hnc hpm hmt] at hi
                simp at hi
              | some j =>
                rw [complete_cached_lost_task env s d j hpd hv hnc hpm hmt] at hi
                simp at hi
    · rintro ⟨hv, hnc, hmt⟩
      cases hpm : s.preparedModelId with
      | none =>
        rw [complete_attach_finalize env s d hpd hv hnc hpm hmt]
        exact ⟨env.attachResult, by simp⟩
      | some j =>
        rw [complete_cached_finalize env s d j hpd hv hnc hpm hmt]
        exact ⟨j, by simp⟩
  · intro hv hnc hmt
    cases hpm : s.preparedModelId with
    | none =>
      exact Or.inl ⟨rfl, complete_attach_finalize env s d hpd hv hnc hpm hmt⟩
    | some j =>
      exact Or.inr ⟨j, rfl, complete_cached_finalize env s d j hpd hv hnc hpm hmt⟩

/-- Witness for C5: the disconnected-volunteer clean exit at concrete inputs. -/
theorem C5_finalize_conditions_witness :
    completeTheMigration cex5Env cex10State =
      { state := cex10State, trace := [Event.callVolunteerForMigration],
        error := none } :=
  (C5_finalize_conditions cex5Env cex10State 2 rfl).1 rfl rfl

theorem tail_cases (e : Event) (h : isContinuationTailEvent e = true) :
    (∃ m, e = Event.consoleError m) ∨ e = Event.invokeDispatcher := by
  cases e <;> simp_all [isContinuationTailEvent]

theorem run_after_abandoned_prepare (cfg : MigratorConfig) (tool : ToolObs)
    (env : AttemptEnv) (s : MigratorState) (acc : AcceptedMigration)
    (pt : List Event)
    (hc : tool.connected = true) (hmp : s.migrationP = false)
    (hlp : s.migratedLoadP = false) (hacc : tool.acceptedMigration = some acc)
    (hpd : s.preparedDetachedModel = none)
    (hprep : prepareTheMigration cfg env acc { s with migrationP := true } =
      { state := { s with migrationP := false }, trace := pt, error := none }) :
    ∃ tail, isContinuationTailEvent tail = true ∧
      ensureMigratingRun cfg tool env s =
        Except.ok
          { state := { s with migrationP := false },
            trace := Event.emitMigrating :: (pt ++ [tail]), error := none } := by
  rw [ensureMigratingRun_started cfg tool env s acc hc hmp hlp hacc]
  have hpd1 : ({ s with migrationP := true } : MigratorState).preparedDetachedModel
      = none := hpd
  rw [doTheMigration_with_prepare cfg env acc _ hpd1, hprep]
  by_cases hst : env.stateAfterPrepare = MigrationState.migrating
  · simp only [hst, ne_eq, not_true_eq_false, ite_false]
    have hpd2 : ({ s with migrationP := false } : MigratorState).preparedDetachedModel
        = none := hpd
    rw [complete_unprepared env _ hpd2]
    refine ⟨Event.consoleError "this._preparedDetachedModel should be defined", rfl, ?_⟩
    rw [continuation_rejected env _ "this._preparedDetachedModel should be defined" rfl]
    simp
  · simp only [hst, ne_eq, not_false_eq_true, ite_true]
    by_cases hend : env.connectedAtEnd = true ∧ env.newContainerIdAtEnd = none
    · refine ⟨Event.consoleError "newContainerId should be defined", rfl, ?_⟩
      rw [continuation_then_assert_fails env _ rfl hend.1 hend.2]
    · refine ⟨Event.invokeDispatcher, rfl, ?_⟩
      rw [continuation_resolved env _ rfl hend]

/-- C6: every migration attempt whose prepare phase hits a recoverable
condition — unsupported target version, transform callback throwing, or no
transform callback for non-native data — emits exactly one
`migrationNotSupported(newVersion)` notification for that attempt; in the
unsupported-version case `createDetached` is never called, in the two
transform cases `importData` is never called, and `currentModelId` is
unchanged in all three cases. -/
theorem C6_recoverable_prepare_failures (cfg : MigratorConfig) (tool : ToolObs)
    (env : AttemptEnv) (s : MigratorState) (acc : AcceptedMigration) (r : StepResult)
    (hc : tool.connected = true) (hmp : s.migrationP = false)
    (hlp : s.migratedLoadP = false) (hacc : tool.acceptedMigration = some acc)
    (hpd : s.preparedDetachedModel = none)
    (h : ensureMigratingRun cfg tool env s = Except.ok r) :
    (env.supportsVersion = false →
      r.trace.filter isNotSupportedEvent =
        [Event.emitMigrationNotSupported acc.newVersion] ∧
      (∀ v, Event.callCreateDetached v ∉ r.trace) ∧
      currentModelId r.state = currentModelId s) ∧
    (env.supportsVersion = true → env.supportsDataFormat = false →
      cfg.hasTransformCallback = true → env.transformResult = none →
      r.trace.filter isNotSupportedEvent =
        [Event.emitMigrationNotSupported acc.newVersion] ∧
      (∀ m dd, Event.callImportData m dd ∉ r.trace) ∧
      currentModelId r.state = currentModelId s) ∧
    (env.supportsVersion = true → env.supportsDataFormat = false →
      cfg.hasTransformCallback = false →
      r.trace.filter isNotSupportedEvent =
        [Event.emitMigrationNotSupported acc.newVersion] ∧
      (∀ m dd, Event.callImportData m dd ∉ r.trace) ∧
      currentModelId r.state = currentModelId s) := by
  refine ⟨?_, ?_, ?_⟩
  · intro hsv
    obtain ⟨tail, htail, hrun⟩ := run_after_abandoned_prepare cfg tool env s acc _
      hc hmp hlp hacc hpd (prepare_unsupported cfg env acc { s with migrationP := true } hsv)
    rw [hrun] at h
    simp only [Except.ok.injEq] at h
    subst h
    rcases tail_cases tail htail with ⟨msg, rfl⟩ | rfl <;>
      exact ⟨by simp [isNotSupportedEvent], by simp, rfl⟩
  · intro hsv hsd htc htr
    obtain ⟨tail, htail, hrun⟩ := run_after_abandoned_prepare cfg tool env s acc _
      hc hmp hlp hacc hpd
      (prepare_transform_throw cfg env acc { s with migrationP := true } hsv hsd htc htr)
    rw [hrun] at h
    simp only [Except.ok.injEq] at h
    subst h
    rcases tail_cases tail htail with ⟨msg, rfl⟩ | rfl <;>
      exact ⟨by simp [isNotSupportedEvent], by simp, rfl⟩
  · intro hsv hsd htc
    obtain ⟨tail, htail, hrun⟩ := run_after_abandoned_prepare cfg tool env s acc _
      hc hmp hlp hacc hpd
      (prepare_no_callback cfg env acc { s with migrationP := true } hsv hsd htc)
    rw [hrun] at h
    simp only [Except.ok.injEq] at h
    subst h
    rcases tail_cases tail htail with ⟨msg, rfl⟩ | rfl <;>
      exact ⟨by simp [isNotSupportedEvent], by simp, rfl⟩

/-- Witness for C6: the unsupported-version scenario at concrete inputs. -/
theorem C6_recoverable_prepare_failures_witness :
    cexResult.trace.filter isNotSupportedEvent =
      [Event.emitMigrationNotSupported sampleAcc.newVersion] ∧
    Event.callCreateDetached "v2" ∉ cexResult.trace ∧
    currentModelId cexResult.state = currentModelId sampleState := by
  have hh := (C6_recoverable_prepare_failures sampleCfg
    (sampleTool MigrationState.migrating) cexEnv sampleState sampleAcc cexResult
    rfl rfl rfl rfl rfl rfl).1 rfl
  exact ⟨hh.1, hh.2.1 "v2", hh.2.2⟩

theorem run_after_abandoned_prepare_migrating (cfg : MigratorConfig)
    (tool : ToolObs) (env : AttemptEnv) (s : MigratorState)
    (acc : AcceptedMigration) (pt : List Event)
    (hc : tool.connected = true) (hmp : s.migrationP = false)
    (hlp : s.migratedLoadP = false) (hacc : tool.acceptedMigration = some acc)
    (hpd : s.preparedDetachedModel = none)
    (hprep : prepareTheMigration cfg env acc { s with migrationP := true } =
      { state := { s with migrationP := false }, trace := pt, error := none })
    (hst : env.stateAfterPrepare = MigrationState.migrating) :
    ensureMigratingRun cfg tool env s =
      Except.ok
        { state := { s with migrationP := false },
          trace := Event.emitMigrating ::
            (pt ++ [Event.consoleError "this._preparedDetachedModel should be defined"]),
          error := none } := by
  rw [ensureMigratingRun_started cfg tool env s acc hc hmp hlp hacc]
  have hpd1 : ({ s with migrationP := true } : MigratorState).preparedDetachedModel
      = none := hpd
  rw [doTheMigration_with_prepare cfg env acc _ hpd1, hprep]
  simp only [hst, ne_eq, not_true_eq_false, ite_false]
  have hpd2 : ({ s with migrationP := false } : MigratorState).preparedDetachedModel
      = none := hpd
  rw [complete_unprepared env _ hpd2]
  rw [continuation_rejected env _ "this._preparedDetachedModel should be defined" rfl]
  simp

theorem continuation_dispatch_iff (env : AttemptEnv) (x : StepResult)
    (hx : Event.invokeDispatcher ∉ x.trace) :
    (Event.invokeDispatcher ∈ (migrationContinuation env x).trace ↔
      (x.error = none ∧
        ¬(env.connectedAtEnd = true ∧ env.newContainerIdAtEnd = none))) ∧
    (Event.invokeDispatcher ∈ (migrationContinuation env x).trace →
      (migrationContinuation env x).state.migrationP = false) := by
  cases he : x.error with
  | some e =>
    rw [continuation_rejected env x e he]
    constructor
    · constructor
      · intro hmem
        simp only [List.mem_append, List.mem_singleton] at hmem
        rcases hmem with hmem | hmem
        · exact absurd hmem hx
        · simp at hmem
      · rintro ⟨h1, -⟩
        simp at h1
    · intro hmem
      simp only [List.mem_append, List.mem_singleton] at hmem
      rcases hmem with hmem | hmem
      · exact absurd hmem hx
      · simp at hmem
  | none =>
    by_cases hend : env.connectedAtEnd = true ∧ env.newContainerIdAtEnd = none
    · rw [continuation_then_assert_fails env x he hend.1 hend.2]
      constructor
      · constructor
        · intro hmem
          simp only [List.mem_append, List.mem_singleton] at hmem
          rcases hmem with hmem | hmem
          · exact absurd hmem hx
          · simp at hmem
        · rintro ⟨-, h2⟩
          exact absurd hend h2
      · intro hmem
        simp only [List.mem_append, List.mem_singleton] at hmem
        rcases hmem with hmem | hmem
        · exact absurd hmem hx
        · simp at hmem
    · rw [continuation_resolved env x he hend]
      refine ⟨⟨fun _ => ⟨rfl, hend⟩, fun _ => ?_⟩, fun _ => rfl⟩
      simp

/-- C7 counterexample: a migration attempt that is abandoned early on an
unsupported version, with the tool still reporting "migrating", ends with the
in-flight marker cleared but the dispatcher is never re-invoked — the attempt
promise instead rejects on the completion assertion and the rejection is only
printed — refuting the claim that the dispatcher is invoked again after every
attempt end. -/
theorem C7_counterexample :
    Event.invokeDispatcher ∉ cexResult.trace ∧
    cexResult.state.migrationP = false ∧
    Event.consoleError "this._preparedDetachedModel should be defined"
      ∈ cexResult.trace := by
  decide

/-- C7 (amended): after an early-abandoned attempt (unsupported version,
transform failure, or no transform strategy) `_migrationP` is cleared by the
prepare phase itself, but when the tool still reports "migrating" the attempt
promise rejects on the completion assertion and the dispatcher is NOT
re-invoked; in general the dispatcher is re-invoked exactly when the attempt
body resolves without rejection and the exit assertion passes, and whenever
it is re-invoked the in-flight marker has been cleared. -/
theorem C7_attempt_end_dispatcher (cfg : MigratorConfig) (tool : ToolObs)
    (env : AttemptEnv) (s : MigratorState) (acc : AcceptedMigration)
    (r : StepResult)
    (hc : tool.connected = true) (hmp : s.migrationP = false)
    (hlp : s.migratedLoadP = false) (hacc : tool.acceptedMigration = some acc)
    (h : ensureMigratingRun cfg tool env s = Except.ok r) :
    (s.preparedDetachedModel = none →
      (env.supportsVersion = false ∨
        (env.supportsVersion = true ∧ env.supportsDataFormat = false ∧
          (cfg.hasTransformCallback = false ∨
            (cfg.hasTransformCallback = true ∧ env.transformResult = none)))) →
      r.state.migrationP = false ∧
      (env.stateAfterPrepare = MigrationState.migrating →
        Event.invokeDispatcher ∉ r.trace ∧
        Event.consoleError "this._preparedDetachedModel should be defined"
          ∈ r.trace)) ∧
    (Event.invokeDispatcher ∈ r.trace ↔
      ((doTheMigration cfg env acc { s with migrationP := true }).error = none ∧
        ¬(env.connectedAtEnd = true ∧ env.newContainerIdAtEnd = none))) ∧
    (Event.invokeDispatcher ∈ r.trace → r.state.migrationP = false) := by
  have hx : Event.invokeDispatcher ∉
      (doTheMigration cfg env acc { s with migrationP := true }).trace := by
    intro hmem
    rcases doTheMigration_trace_events cfg env acc { s with migrationP := true }
      _ hmem with hh | hh <;> simp [isPrepareEvent, isCompleteEvent] at hh
  have hcd := continuation_dispatch_iff env
    (doTheMigration cfg env acc { s with migrationP := true }) hx
  refine ⟨?_, ?_, ?_⟩
  · intro hpd habn
    have hprep : prepareTheMigration cfg env acc { s with migrationP := true } =
        { state := { s with migrationP := false },
          trace := (prepareTheMigration cfg env acc { s with migrationP := true }).trace,
          error := none } := by
      rcases habn with hsv | ⟨hsv, hsd, htc | ⟨htc, htrr⟩⟩
      · rw [prepare_unsupported cfg env acc { s with migrationP := true } hsv]
      · rw [prepare_no_callback cfg env acc { s with migrationP := true } hsv hsd htc]
      · rw [prepare_transform_throw cfg env acc
          { s with migrationP := true } hsv hsd htc htrr]
    constructor
    · obtain ⟨tl, -, hrun⟩ := run_after_abandoned_prepare cfg tool env s acc _
        hc hmp hlp hacc hpd hprep
      rw [hrun] at h
      simp only [Except.ok.injEq] at h
      subst h
      rfl
    · intro hst
      have hrun := run_after_abandoned_prepare_migrating cfg tool env s acc _
        hc hmp hlp hacc hpd hprep hst
      rw [hrun] at h
      simp only [Except.ok.injEq] at h
      subst h
      constructor
      · intro hmem
        simp only [List.mem_cons, List.mem_append, List.mem_singleton] at hmem
        rcases hmem with hmem | hmem | hmem
        · simp at hmem
        · have hp := prepare_trace_events cfg env acc { s with migrationP := true }
          rw [List.all_eq_true] at hp
          have hq := hp _ (by rw [hprep] at hp ⊢; exact hmem)
          simp [isPrepareEvent] at hq
        · simp at hmem
      · simp
  · rw [ensureMigratingRun_started cfg tool env s acc hc hmp hlp hacc] at h
    simp only [Except.ok.injEq] at h
    subst h
    simp only [List.mem_cons]
    constructor
    · intro hmem
      rcases hmem with hmem | hmem
      · simp at hmem
      · exact hcd.1.mp hmem
    · intro hcond
      exact Or.inr (hcd.1.mpr hcond)
  · rw [ensureMigratingRun_started cfg tool env s acc hc hmp hlp hacc] at h
    simp only [Except.ok.injEq] at h
    subst h
    intro hmem
    simp only [List.mem_cons] at hmem
    rcases hmem with hmem | hmem
    · simp at hmem
    · exact hcd.2 hmem

/-- Witness for the amended C7 at the concrete abandonment scenario. -/
theorem C7_attempt_end_dispatcher_witness :
    cexResult.state.migrationP = false ∧
    Event.invokeDispatcher ∉ cexResult.trace ∧
    Event.consoleError "this._preparedDetachedModel should be defined"
      ∈ cexResult.trace := by
  have hh := (C7_attempt_end_dispatcher sampleCfg (sampleTool MigrationState.migrating)
    cexEnv sampleState sampleAcc cexResult rfl rfl rfl rfl rfl).1 rfl (Or.inl rfl)
  exact ⟨hh.1, (hh.2 rfl).1, (hh.2 rfl).2⟩

/-- C8 counterexample: with a migration attempt already in flight but the
client disconnected, re-invoking `ensureMigrating` is not free of external
calls — it registers a one-time "connected" listener on the tool before ever
reaching the in-flight guard, refuting the unconditional no-op claim. -/
theorem C8_counterexample :
    cex8State.migrationP = true ∧
    resultTrace (ensureMigratingRun sampleCfg cex8Tool sampleAttemptEnv cex8State) =
      [Event.registerOnceConnected] := by
  decide

/-- C8 (amended): re-entry of the same kind is a silent no-op — with no
external calls, emissions or state change — for `ensureLoading`
unconditionally and for `ensureMigrating` provided the client is connected
(when disconnected it instead registers a one-time "connected" listener
before reaching the in-flight guard); consequently the dispatcher invoked
twice in immediate succession while a connected attempt of the matching
phase is in flight produces exactly the calls of a single invocation. -/
theorem C8_idempotent_reentry (cfg : MigratorConfig) (tool : ToolObs)
    (aenv : AttemptEnv) (lenv : LoadEnv) (s : MigratorState) :
    (tool.connected = true → s.migrationP = true →
      ensureMigratingRun cfg tool aenv s =
        Except.ok { state := s, trace := [], error := none }) ∧
    (s.migratedLoadP = true →
      ensureLoadingRun tool lenv s =
        Except.ok { state := s, trace := [], error := none }) ∧
    (tool.connected = false →
      ensureMigratingRun cfg tool aenv s =
        Except.ok { state := s, trace := [Event.registerOnceConnected], error := none }) ∧
    (tool.migrationState = MigrationState.migrating → tool.connected = true →
      s.migrationP = true →
      takeAppropriateActionForCurrentMigratable cfg tool aenv lenv s =
        Except.ok { state := s, trace := [], error := none }) ∧
    (tool.migrationState = MigrationState.migrated → s.migratedLoadP = true →
      takeAppropriateActionForCurrentMigratable cfg tool aenv lenv s =
        Except.ok { state := s, trace := [], error := none }) := by
  refine ⟨fun hc hmp => ensureMigratingRun_noop cfg tool aenv s hc hmp,
    fun hlp => ensureLoadingRun_noop tool lenv s hlp,
    fun hc => ensureMigratingRun_disconnected cfg tool aenv s hc, ?_, ?_⟩
  · intro hms hc hmp
    unfold takeAppropriateActionForCurrentMigratable
    rw [hms]
    exact ensureMigratingRun_noop cfg tool aenv s hc hmp
  · intro hms hlp
    unfold takeAppropriateActionForCurrentMigratable
    rw [hms]
    exact ensureLoadingRun_noop tool lenv s hlp

/-- Witness for the amended C8: the dispatcher on a connected migrating tool
with an attempt in flight is a silent no-op. -/
theorem C8_idempotent_reentry_witness :
    takeAppropriateActionForCurrentMigratable sampleCfg
      (sampleTool MigrationState.migrating) sampleAttemptEnv sampleLoadEnv cex8State =
      Except.ok { state := cex8State, trace := [], error := none } :=
  (C8_idempotent_reentry sampleCfg (sampleTool MigrationState.migrating)
    sampleAttemptEnv sampleLoadEnv cex8State).2.2.2.1 rfl rfl rfl

theorem prepare_dispose_only (cfg : MigratorConfig) (env : AttemptEnv)
    (acc : AcceptedMigration) (s : MigratorState) :
    ∀ m, Event.callDispose m ∈ (prepareTheMigration cfg env acc s).trace →
      m = env.exportModelId := by
  intro m hm
  simp only [prepareTheMigration] at hm
  repeat' split at hm
  all_goals simp_all

theorem doTheMigration_dispose_only (cfg : MigratorConfig) (env : AttemptEnv)
    (acc : AcceptedMigration) (s : MigratorState) :
    ∀ m, Event.callDispose m ∈ (doTheMigration cfg env acc s).trace →
      m = env.exportModelId := by
  intro m hm
  have hct := complete_trace_events env (prepareTheMigration cfg env acc s).state
  have hct2 := complete_trace_events env s
  rw [List.all_eq_true] at hct hct2
  unfold doTheMigration at hm
  by_cases hpd : s.preparedDetachedModel = none <;>
    by_cases hst : env.stateAfterPrepare = MigrationState.migrating <;>
      simp only [hpd, hst, if_pos, if_neg, ite_true, ite_false, ne_eq,
        not_true_eq_false, not_false_eq_true] at hm
  · simp only [List.mem_append] at hm
    rcases hm with hm | hm
    · exact prepare_dispose_only cfg env acc s m hm
    · have hq := hct _ (by simpa using hm)
      simp [isCompleteEvent] at hq
  · exact prepare_dispose_only cfg env acc s m hm
  · have hq := hct2 _ (by simpa using hm)
    simp [isCompleteEvent] at hq
  · simp at hm

theorem ensureMigratingRun_mem (cfg : MigratorConfig) (tool : ToolObs)
    (env : AttemptEnv) (s : MigratorState) (r : StepResult) (e : Event)
    (h : ensureMigratingRun cfg tool env s = Except.ok r) (he : e ∈ r.trace) :
    e = Event.registerOnceConnected ∨ e = Event.emitMigrating ∨
    isContinuationTailEvent e = true ∨
    (∃ acc, tool.acceptedMigration = some acc ∧
      e ∈ (doTheMigration cfg env acc { s with migrationP := true }).trace) := by
  by_cases hc : tool.connected = false
  · rw [ensureMigratingRun_disconnected cfg tool env s hc] at h
    simp only [Except.ok.injEq] at h
    subst h
    simp only [List.mem_singleton] at he
    exact Or.inl he
  · simp only [Bool.not_eq_false] at hc
    by_cases hmp : s.migrationP = true
    · rw [ensureMigratingRun_noop cfg tool env s hc hmp] at h
      simp only [Except.ok.injEq] at h
      subst h
      simp at he
    · simp only [Bool.not_eq_true] at hmp
      by_cases hlp : s.migratedLoadP = true
      · rw [ensureMigratingRun_throw_load cfg tool env s hc hmp hlp] at h
        simp at h
      · simp only [Bool.not_eq_true] at hlp
        cases hacc : tool.acceptedMigration with
        | none =>
          rw [ensureMigratingRun_throw_noacc cfg tool env s hc hmp hlp hacc] at h
          simp at h
        | some acc =>
          obtain ⟨tail, htail, htr, -⟩ :=
            run_trace_decomp cfg tool env s acc r hc hmp hlp hacc h
          rw [htr] at he
          simp only [List.mem_cons, List.mem_append, List.mem_singleton] at he
          rcases he with rfl | he | rfl | he
          · exact Or.inr (Or.inl rfl)
          · exact Or.inr (Or.inr (Or.inr ⟨acc, rfl, he⟩))
          · exact Or.inr (Or.inr (Or.inl htail))
          · simp at he

theorem ensureLoadingRun_no_dispose (tool : ToolObs) (lenv : LoadEnv)
    (s : MigratorState) (r : StepResult)
    (h : ensureLoadingRun tool lenv s = Except.ok r) :
    ∀ m, Event.callDispose m ∉ r.trace := by
  intro m hm
  by_cases hlp : s.migratedLoadP = true
  · rw [ensureLoadingRun_noop tool lenv s hlp] at h
    simp only [Except.ok.injEq] at h
    subst h
    simp at hm
  · simp only [Bool.not_eq_true] at hlp
    by_cases hmp : s.migrationP = true
    · rw [ensureLoadingRun_throw_mig tool lenv s hlp hmp] at h
      simp at h
    · simp only [Bool.not_eq_true] at hmp
      cases hacc : tool.acceptedMigration with
      | none =>
        rw [ensureLoadingRun_throw_noacc tool lenv s hlp hmp hacc] at h
        simp at h
      | some acc =>
        cases hnc : tool.newContainerId with
        | none =>
          rw [ensureLoadingRun_throw_noid tool lenv s acc hlp hmp hacc hnc] at h
          simp at h
        | some migratedId =>
          rw [ensureLoadingRun_started tool lenv s acc migratedId hlp hmp hacc hnc] at h
          unfold doTheLoad at h
          by_cases hsv : lenv.supportsVersion = false <;>
            simp only [hsv, Bool.not_false, Bool.not_true, Bool.not_eq_false,
              ite_true, ite_false, if_pos, if_neg, Except.ok.injEq] at h
          · subst h
            simp at hm
          · simp only [Bool.not_eq_false] at hsv
            simp only [hsv, Bool.not_true, Bool.false_eq_true, ite_false,
              Except.ok.injEq] at h
            subst h
            simp at hm

/-- C9: frame condition on `dispose`: every `dispose()` call the orchestrator
ever issues — in the dispatcher, a migration attempt, or a load — targets the
paused-load export model of the prepare phase; the load executor never
disposes anything, in particular not the model being replaced; and in the
prepare phase the dispose happens immediately after `exportData`. -/
theorem C9_dispose_only_export_model (cfg : MigratorConfig) (tool : ToolObs)
    (env : AttemptEnv) (lenv : LoadEnv) (s : MigratorState) (r : StepResult) :
    (ensureMigratingRun cfg tool env s = Except.ok r →
      ∀ m, Event.callDispose m ∈ r.trace → m = env.exportModelId) ∧
    (ensureLoadingRun tool lenv s = Except.ok r →
      ∀ m, Event.callDispose m ∉ r.trace) ∧
    (takeAppropriateActionForCurrentMigratable cfg tool env lenv s = Except.ok r →
      ∀ m, Event.callDispose m ∈ r.trace → m = env.exportModelId) ∧
    (∀ acc s2, env.supportsVersion = true →
      ∃ post, (prepareTheMigration cfg env acc s2).trace =
        [Event.callSupportsVersion acc.newVersion,
         Event.callCreateDetached acc.newVersion,
         Event.callLoadExistingPaused s2.currentMigratable.id
           acc.migrationSequenceNumber,
         Event.callExportData env.exportModelId,
         Event.callDispose env.exportModelId,
         Event.callSupportsDataFormat env.detachedModelId env.exportedData]
          ++ post) := by
  have hmig : ensureMigratingRun cfg tool env s = Except.ok r →
      ∀ m, Event.callDispose m ∈ r.trace → m = env.exportModelId := by
    intro h m hm
    rcases ensureMigratingRun_mem cfg tool env s r _ h hm with hh | hh | hh | ⟨acc, -, hh⟩
    · simp at hh
    · simp at hh
    · simp [isContinuationTailEvent] at hh
    · exact doTheMigration_dispose_only cfg env acc _ m hh
  refine ⟨hmig, ensureLoadingRun_no_dispose tool lenv s r, ?_, ?_⟩
  · intro h m hm
    unfold takeAppropriateActionForCurrentMigratable at h
    cases hms : tool.migrationState with
    | collaborating =>
      rw [hms] at h
      simp only [Except.ok.injEq] at h
      subst h
      simp at hm
    | migrating =>
      rw [hms] at h
      exact hmig h m hm
    | migrated =>
      rw [hms] at h
      exact absurd hm (ensureLoadingRun_no_dispose tool lenv s r h m)
  · intro acc s2 hsv
    by_cases hsd : env.supportsDataFormat = true
    · rw [prepare_native cfg env acc s2 hsv hsd]
      exact ⟨_, rfl⟩
    · simp only [Bool.not_eq_true] at hsd
      by_cases htc : cfg.hasTransformCallback = true
      · cases htr : env.transformResult with
        | some dd =>
          rw [prepare_transform_ok cfg env acc s2 dd hsv hsd htc htr]
          exact ⟨_, rfl⟩
        | none =>
          rw [prepare_transform_throw cfg env acc s2 hsv hsd htc htr]
          exact ⟨_, rfl⟩
      · simp only [Bool.not_eq_true] at htc
        rw [prepare_no_callback cfg env acc s2 hsv hsd htc]
        exact ⟨_, rfl⟩

/-- Witness for C9: the load executor's run on concrete inputs contains no
dispose call. -/
theorem C9_dispose_only_export_model_witness :
    Event.callDispose 0 ∉ sampleLoadResult.trace :=
  (C9_dispose_only_export_model sampleCfg (sampleTool MigrationState.migrated)
    sampleAttemptEnv sampleLoadEnv sampleState sampleLoadResult).2.1 rfl 0

/-- C10 counterexample: in the claim's own abandoned-prepare scenario the
rejection is indeed consumed and the continuation never runs, but
`_migrationP` has already been cleared by the prepare phase rather than
remaining defined, and the next `ensureMigrating` would start a fresh
attempt rather than being a silent no-op. -/
theorem C10_counterexample :
    Event.consoleError "this._preparedDetachedModel should be defined"
      ∈ cexResult.trace ∧
    cexResult.state.migrationP = false ∧
    (ensureMigratingSync (sampleTool MigrationState.migrating) cexResult.state).1 =
      SyncOutcome.started := by
  decide

/-- C10 (amended): when the attempt body rejects, the rejection is consumed by
`.catch(console.error)` — the run returns normally and only traces the
message — the success continuation never runs (no dispatcher re-invocation),
and `_migrationP` keeps whatever value the body last gave it; whenever that
value is still "defined" (as after the failed-assignment assertion), every
subsequent connected `ensureMigrating` is a silent no-op. -/
theorem C10_rejection_consumed (cfg : MigratorConfig) (tool : ToolObs)
    (env : AttemptEnv) (s : MigratorState) (acc : AcceptedMigration)
    (r : StepResult) (e : String)
    (hc : tool.connected = true) (hmp : s.migrationP = false)
    (hlp : s.migratedLoadP = false) (hacc : tool.acceptedMigration = some acc)
    (h : ensureMigratingRun cfg tool env s = Except.ok r)
    (herr : (doTheMigration cfg env acc { s with migrationP := true }).error
      = some e) :
    r.error = none ∧
    Event.consoleError e ∈ r.trace ∧
    Event.invokeDispatcher ∉ r.trace ∧
    r.state = (doTheMigration cfg env acc { s with migrationP := true }).state ∧
    (r.state.migrationP = true →
      ∀ tool2 env2, tool2.connected = true →
        ensureMigratingRun cfg tool2 env2 r.state =
          Except.ok { state := r.state, trace := [], error := none }) := by
  have hx : Event.invokeDispatcher ∉
      (doTheMigration cfg env acc { s with migrationP := true }).trace := by
    intro hmem
    rcases doTheMigration_trace_events cfg env acc { s with migrationP := true }
      _ hmem with hh | hh <;> simp [isPrepareEvent, isCompleteEvent] at hh
  rw [ensureMigratingRun_started cfg tool env s acc hc hmp hlp hacc] at h
  rw [continuation_rejected env _ e herr] at h
  simp only [Except.ok.injEq] at h
  subst h
  refine ⟨rfl, by simp, ?_, rfl, ?_⟩
  · intro hmem
    simp only [List.mem_cons, List.mem_append, List.mem_singleton] at hmem
    rcases hmem with hmem | hmem | hmem
    · simp at hmem
    · exact hx hmem
    · simp at hmem
  · intro hmpr tool2 env2 hc2
    exact ensureMigratingRun_noop cfg tool2 env2 _ hc2 hmpr

/-- Witness for the amended C10: the failed-assignment rejection at concrete
inputs, after which `_migrationP` is still defined and `ensureMigrating` is a
silent no-op. -/
theorem C10_rejection_consumed_witness :
    cex10Result.error = none ∧
    Event.consoleError "We should be assigned the migration task"
      ∈ cex10Result.trace ∧
    Event.invokeDispatcher ∉ cex10Result.trace ∧
    ensureMigratingRun sampleCfg (sampleTool MigrationState.migrating)
      sampleAttemptEnv cex10Result.state =
      Except.ok { state := cex10Result.state, trace := [], error := none } := by
  have hall := C10_rejection_consumed sampleCfg (sampleTool MigrationState.migrating)
    cex10Env cex10State sampleAcc cex10Result "We should be assigned the migration task"
    rfl rfl rfl rfl rfl rfl
  exact ⟨hall.1, hall.2.1, hall.2.2.1,
    hall.2.2.2.2 (by decide) (sampleTool MigrationState.migrating) sampleAttemptEnv rfl⟩

/-- Witness for C1: a migration attempt at concrete inputs leaves the
current-session triple untouched. -/
theorem C1_consistent_triple_single_swap_witness :
    sampleAttemptResult.state.currentMigratable = sampleState.currentMigratable :=
  (C1_consistent_triple_single_swap sampleCfg (sampleTool MigrationState.migrating)
    sampleAttemptEnv sampleLoadEnv sampleState sampleAttemptResult).2.2.2 rfl rfl

/-- Witness for C2: a disconnected `ensureMigrating` does not throw. -/
theorem C2_sync_throws_iff_protocol_violation_witness :
    ensureMigratingRun sampleCfg cex8Tool sampleAttemptEnv sampleState ≠
      Except.error "boom" :=
  (C2_sync_throws_iff_protocol_violation sampleCfg cex8Tool sampleAttemptEnv
    sampleLoadEnv sampleState).2.1 (Or.inl rfl) "boom"

/-- Witness for C3: a re-entered attempt with a cached detached model keeps
the cache at concrete inputs. -/
theorem C3_cache_monotonicity_witness :
    cex10Result.state.preparedDetachedModel = some 2 :=
  ((C3_cache_monotonicity sampleCfg (sampleTool MigrationState.migrating) cex10Env
    sampleLoadEnv cex10State cex10Result).1 2 rfl rfl).2.2.2.2

/-- Witness for C4: the collaborating phase registers the one-time listener
and does nothing else, at concrete inputs. -/
theorem C4_dispatcher_maps_phase_to_action_witness :
    takeAppropriateActionForCurrentMigratable sampleCfg
      (sampleTool MigrationState.collaborating) sampleAttemptEnv sampleLoadEnv
      sampleState =
      Except.ok
        { state := sampleState, trace := [Event.registerOnceMigrating],
          error := none } :=
  (C4_dispatcher_maps_phase_to_action sampleCfg
    (sampleTool MigrationState.collaborating) sampleAttemptEnv sampleLoadEnv
    sampleState).2.2 rfl

end MigratorSpec
